import Mathlib

/-!
# YDNS Updater: the update cycle of `MainDialog`

A shallow embedding of `src/maindialog.cc` / `src/maindialog.h`.

* The Qt value classes the dialog uses (`QString::arg`, `QByteArray::toBase64`,
  `QSettings`, `QHostAddress`, `QNetworkRequest`, `QNetworkReply`) are modelled as
  plain data with the operations the dialog calls.
* What depends on the build or on the machine (the version string of
  `version.h`, the local 8-bit codec, the textual address codec of
  `QHostAddress`) is collected in the record `Qt` and passed as a parameter.
* The dialog itself is the record `MainDialog`; every slot is a function on it,
  and the Qt event loop is the step function `MainDialog.step`.
-/

/-! ## QString -/

namespace QString

/-- One piece of a scanned format string: a literal character, or a place
marker such as `%1` or `%L12` together with its number and its source text. -/
inductive Piece
  | lit (c : Char)
  | marker (n : Nat) (text : List Char)
  deriving DecidableEq, Repr

/-- Scanner state of `scan`: plain text, after `%` (or `%L`), after the first
digit of a marker. -/
inductive ScanState
  | text
  | percent (buf : List Char)
  | digit (buf : List Char) (n : Nat)

/-- Decimal value of an ASCII digit (`QChar::digitValue`, restricted to ASCII). -/
def digitValue (c : Char) : Option Nat :=
  if 48 ≤ c.toNat ∧ c.toNat ≤ 57 then some (c.toNat - 48) else none

/-- Splits a format string into literals and place markers, the way
`QString::arg` looks for them: `%`, an optional `L`, one or two digits. -/
def scan : ScanState → List Char → List Piece
  | .text, [] => []
  | .percent buf, [] => buf.map .lit
  | .digit buf n, [] => [.marker n buf]
  | .text, c :: cs =>
      if c = '%' then scan (.percent ['%']) cs else .lit c :: scan .text cs
  | .percent buf, c :: cs =>
      if c = 'L' ∧ buf = ['%'] then scan (.percent ['%', 'L']) cs
      else match digitValue c with
        | some d => scan (.digit (buf ++ [c]) d) cs
        | none =>
            buf.map .lit ++
              (if c = '%' then scan (.percent ['%']) cs else .lit c :: scan .text cs)
  | .digit buf n, c :: cs =>
      match digitValue c with
      | some d => .marker (10 * n + d) (buf ++ [c]) :: scan .text cs
      | none =>
          .marker n buf ::
            (if c = '%' then scan (.percent ['%']) cs else .lit c :: scan .text cs)

/-- The lowest marker number of a scanned format string, if it has a marker. -/
def minMarker : List Piece → Option Nat
  | [] => none
  | .lit _ :: ps => minMarker ps
  | .marker n _ :: ps =>
      match minMarker ps with
      | none => some n
      | some m => some (min n m)

/-- Replaces every marker numbered `n` by `a` and leaves the others as written. -/
def fill (n : Nat) (a : List Char) : List Piece → List Char
  | [] => []
  | .lit c :: ps => c :: fill n a ps
  | .marker k t :: ps => (if k = n then a else t) ++ fill n a ps

/-- The method `QString::arg(const QString &a)`: replaces the lowest-numbered place marker
by `a`; a string without marker is returned unchanged. -/
def arg (s a : String) : String :=
  match minMarker (scan .text s.data) with
  | none => s
  | some n => ⟨fill n a.data (scan .text s.data)⟩

end QString

/-- The function `QObject::tr`: the source text itself (no translator is installed by the
code under `src/`). -/
def tr (sourceText : String) : String := sourceText

/-! ## QByteArray and base64 -/

/-- One byte of a `QByteArray`. -/
abbrev Byte := Fin 256

namespace QByteArray

/-- The base64 alphabet of `QByteArray::toBase64`. -/
def alphabet_base64 : List Char :=
  ("ABCDEFGH" ++ "IJKLMNOP" ++ "QRSTUVWX" ++ "YZabcdef" ++
   "ghijklmn" ++ "opqrstuv" ++ "wxyz0123" ++ "456789+/").data

/-- The character of the sextet `i`. -/
def alphabet (i : Nat) : Char := alphabet_base64.getD i 'A'

/-- Encodes three bytes at a time into four characters; `chunk` is the 24-bit
group, its four sextets are taken by division and remainder, and a last group
of one or two bytes is padded with `=`. -/
def encodeChunk : List Byte → List Char
  | [] => []
  | [a] =>
      let chunk := a.val * 65536
      [alphabet (chunk / 262144 % 64), alphabet (chunk / 4096 % 64), '=', '=']
  | [a, b] =>
      let chunk := a.val * 65536 + b.val * 256
      [alphabet (chunk / 262144 % 64), alphabet (chunk / 4096 % 64),
       alphabet (chunk / 64 % 64), '=']
  | a :: b :: c :: rest =>
      let chunk := a.val * 65536 + b.val * 256 + c.val
      alphabet (chunk / 262144 % 64) :: alphabet (chunk / 4096 % 64) ::
        alphabet (chunk / 64 % 64) :: alphabet (chunk % 64) :: encodeChunk rest

/-- The method `QByteArray::toBase64()`. -/
def toBase64 (bs : List Byte) : String := ⟨encodeChunk bs⟩

/-- The sextet a base64 character stands for; `none` for every other character
(padding included), which the decoder skips. -/
def sextet (ch : Char) : Option Nat :=
  let n := ch.toNat
  if 65 ≤ n ∧ n ≤ 90 then some (n - 65)
  else if 97 ≤ n ∧ n ≤ 122 then some (n - 97 + 26)
  else if 48 ≤ n ∧ n ≤ 57 then some (n - 48 + 52)
  else if n = 43 then some 62
  else if n = 47 then some 63
  else none

/-- The decoding loop of `QByteArray::fromBase64`: `buf` collects sextets,
`nbits` counts the bits in it, and a byte is emitted as soon as eight bits are
there. -/
def decodeGo (buf nbits : Nat) : List Char → List Byte
  | [] => []
  | ch :: cs =>
      match sextet ch with
      | none => decodeGo buf nbits cs
      | some d =>
          let buf1 := buf * 64 + d
          let nbits1 := nbits + 6
          if nbits1 ≥ 8 then
            let nbits2 := nbits1 - 8
            ⟨buf1 / 2 ^ nbits2 % 256, Nat.mod_lt _ (by decide)⟩ ::
              decodeGo (buf1 % 2 ^ nbits2) nbits2 cs
          else decodeGo buf1 nbits1 cs

/-- The function `QByteArray::fromBase64(base64)`. -/
def fromBase64 (s : String) : List Byte := decodeGo 0 0 s.data

end QByteArray

/-! ## QSettings -/

/-- A `QVariant` holding a string, or the invalid variant. -/
abbrev QVariant := Option String

/-- The method `QVariant::toString()`: the empty string for the invalid variant. -/
def QVariant.toString (v : QVariant) : String := v.getD ""

/-- The application settings store. `entries` are the key/value pairs,
`writes` records every `setValue` call in order. -/
structure QSettings where
  entries : List (String × String)
  writes : List (String × String)
  deriving DecidableEq, Repr

namespace QSettings

/-- The method `QSettings::contains(key)`. -/
def contains (s : QSettings) (key : String) : Bool :=
  s.entries.any (fun e => decide (e.1 = key))

/-- The method `QSettings::value(key)`: the invalid variant when the key is absent. -/
def value (s : QSettings) (key : String) : QVariant :=
  (s.entries.find? (fun e => decide (e.1 = key))).map (fun e => e.2)

/-- The method `QSettings::setValue(key, value)`. -/
def setValue (s : QSettings) (key value : String) : QSettings :=
  { entries := (key, value) :: s.entries.filter (fun e => !decide (e.1 = key)),
    writes := s.writes ++ [(key, value)] }

/-- The method `QSettings::sync()`: `setValue` is applied to the store at once, so there
is nothing left to flush. -/
def sync (s : QSettings) : QSettings := s

end QSettings

/-! ## QHostAddress -/

/-- An address value of `QHostAddress`: the null address (unknown protocol,
what a failed parse leaves behind), an IPv4 address, or an IPv6 address. -/
inductive QHostAddress
  | null
  | ipv4 (a : Nat)
  | ipv6 (a6 : Nat)
  deriving DecidableEq, Repr

/-- The operator `QHostAddress::operator==`: same protocol and same address; two null
addresses are equal. -/
def QHostAddress.eq (x y : QHostAddress) : Bool :=
  match x, y with
  | .ipv4 a, .ipv4 b => decide (a = b)
  | .ipv4 _, _ => false
  | .ipv6 a, .ipv6 b => decide (a = b)
  | .ipv6 _, _ => false
  | .null, .null => true
  | .null, _ => false

/-- The method `QHostAddress::isNull()`. -/
def QHostAddress.isNull (x : QHostAddress) : Bool :=
  match x with
  | .null => true
  | _ => false

/-- What the dialog takes from outside `src/`: the version string of
`version.h` and the codecs of the Qt library that depend on the machine. -/
structure Qt where
  /-- The macro `YDNS_UPDATER_VERSION` of `version.h`. -/
  version : String
  /-- The method `QString::toLocal8Bit()`. -/
  toLocal8Bit : String → List Byte
  /-- The method `QHostAddress::setAddress(const QString &)` and the constructor from a
  string: the parsed address, or the null address when the text does not parse. -/
  setAddress : String → QHostAddress
  /-- The method `QHostAddress::toString()`. -/
  addressToString : QHostAddress → String

/-! ## QNetworkRequest and QNetworkReply -/

/-- A `QUrl`: the address without query, and the query items set through
`QUrlQuery::setQueryItems`. -/
structure QUrl where
  address : String
  queryItems : List (String × String)
  deriving DecidableEq, Repr

/-- A `QNetworkRequest`: its URL and its raw headers in the order they were
set. Header values are kept as text. -/
structure QNetworkRequest where
  url : QUrl
  rawHeaders : List (String × String)
  deriving DecidableEq, Repr

namespace QNetworkRequest

/-- Header names compare without regard to case. -/
def sameHeaderName (x y : String) : Bool :=
  decide (x.data.map Char.toLower = y.data.map Char.toLower)

/-- The method `QNetworkRequest::setRawHeader(headerName, headerValue)`: replaces a header
of the same name. -/
def setRawHeader (r : QNetworkRequest) (headerName headerValue : String) :
    QNetworkRequest :=
  { r with
    rawHeaders :=
      r.rawHeaders.filter (fun h => !sameHeaderName h.1 headerName) ++
        [(headerName, headerValue)] }

/-- The method `QNetworkRequest::rawHeader(headerName)`, `none` when the header is absent. -/
def rawHeader (r : QNetworkRequest) (headerName : String) : Option String :=
  (r.rawHeaders.find? (fun h => sameHeaderName h.1 headerName)).map (fun h => h.2)

end QNetworkRequest

/-- The slots of `MainDialog` that the timer, the event loop and the network
replies invoke. -/
inductive Slot
  | checkForUpdate
  | readReplyForCurrentAddress
  | readReplyForUpdate
  | updateHost
  deriving DecidableEq, Repr

/-- A `QNetworkReply` object created by `QNetworkAccessManager::get`.
`statusCode` is the attribute `HttpStatusCodeAttribute`, invalid (`none`) as
long as no HTTP response arrived, and for good when the call fails at
transport level. -/
structure QNetworkReply where
  request : QNetworkRequest
  finishedSlots : List Slot
  isFinished : Bool
  data : String
  statusCode : Option Int
  errorString : String
  deleted : Bool
  deriving DecidableEq, Repr

/-- The freshly created reply of `QNetworkAccessManager::get(request)`. -/
def QNetworkReply.pending (request : QNetworkRequest) : QNetworkReply :=
  { request := request, finishedSlots := [], isFinished := false, data := "",
    statusCode := none, errorString := "Unknown error", deleted := false }

/-- A reply that is still on its way: neither finished nor deleted. -/
def QNetworkReply.outstanding (r : QNetworkReply) : Bool :=
  !r.isFinished && !r.deleted

/-! ## The dialog -/

/-- HTTP status codes used by YDNS API v1 (`maindialog.h`). -/
def HTTP_STATUS_OK : Int := 200

/-- Status 400 of `maindialog.h`. -/
def HTTP_STATUS_BAD_REQUEST : Int := 400

/-- Status 403 of `maindialog.h`. -/
def HTTP_STATUS_FORBIDDEN : Int := 403

/-- Status 404 of `maindialog.h`. -/
def HTTP_STATUS_NOT_FOUND : Int := 404

/-- The enum `QSystemTrayIcon::MessageIcon`, as far as the dialog uses it. -/
inductive MessageIcon
  | Information
  | Critical
  deriving DecidableEq, Repr

/-- One call of `QSystemTrayIcon::showMessage`. -/
structure TrayMessage where
  title : String
  message : String
  icon : MessageIcon
  deriving DecidableEq, Repr

/-- The `QAction` `m_actionStatus`. -/
structure QAction where
  text : String
  toolTip : String
  enabled : Bool
  deriving DecidableEq, Repr

/-- One call of `QMessageBox::critical(this, title, text)`. -/
structure QMessageBox where
  title : String
  text : String
  deriving DecidableEq, Repr

/-- The three line edits of the form. -/
inductive FormField
  | host
  | email
  | password
  deriving DecidableEq, Repr

/-- The dialog and what it acts on.

* `settings` is the store every `QSettings settings;` object opens;
* `ui_host`, `ui_email`, `ui_password` are the texts of the line edits;
* `messageBoxes` are the boxes shown by `QMessageBox::critical`, oldest first;
* `trayMessages` are the calls of `m_trayIcon->showMessage`, oldest first;
* `replies` are the reply objects of `m_netAccessMgr`, a pointer to one being
  its index; `m_netReply` is such a pointer, `none` for the null pointer;
* `eventQueue` holds the slots posted by `QTimer::singleShot(0, ...)`. -/
structure MainDialog where
  settings : QSettings
  ui_host : String
  ui_email : String
  ui_password : String
  focus : Option FormField
  messageBoxes : List QMessageBox
  trayMessages : List TrayMessage
  m_actionStatus : QAction
  m_netReply : Option Nat
  m_lastAddress : QHostAddress
  replies : List QNetworkReply
  eventQueue : List Slot
  deriving DecidableEq, Repr

namespace MainDialog

/-- The dialog after the constructor: the form is filled from the settings,
the status action is disabled, and the first `checkForUpdate` is posted. The
constructor leaves `m_netReply` without a value; it is the null pointer here,
and `checkForUpdate` assigns it before any slot reads it. -/
def init (settings : QSettings) : MainDialog :=
  { settings := settings,
    ui_host := if settings.contains "host" then (settings.value "host").toString else "",
    ui_email := if settings.contains "email" then (settings.value "email").toString else "",
    ui_password :=
      if settings.contains "password" then (settings.value "password").toString else "",
    focus := none,
    messageBoxes := [],
    trayMessages := [],
    m_actionStatus := { text := tr "No update made yet", toolTip := "", enabled := false },
    m_netReply := none,
    m_lastAddress := QHostAddress.null,
    replies := [],
    eventQueue := [Slot.checkForUpdate] }

/-- The call `m_trayIcon->showMessage(title, message, icon)`. -/
def showMessage (s : MainDialog) (title message : String) (icon : MessageIcon) :
    MainDialog :=
  { s with trayMessages := s.trayMessages ++ [{ title := title, message := message, icon := icon }] }

/-- The call `m_netAccessMgr.get(request)` followed by `connect(m_netReply,
SIGNAL(finished()), this, slot)`, with the new reply stored in `m_netReply`. -/
def getAndConnect (s : MainDialog) (request : QNetworkRequest) (slot : Slot) :
    MainDialog :=
  { s with
    replies := s.replies ++ [{ QNetworkReply.pending request with finishedSlots := [slot] }],
    m_netReply := some s.replies.length }

/-- Dereferences `m_netReply`: `none` for the null pointer and for a pointer to
a reply object that is gone. -/
def netReply (s : MainDialog) : Option (Nat × QNetworkReply) :=
  match s.m_netReply with
  | none => none
  | some p =>
      match s.replies[p]? with
      | none => none
      | some r => if r.deleted then none else some (p, r)

/-- The call `m_netReply->deleteLater()` for the reply at `p`. -/
def deleteLater (s : MainDialog) (p : Nat) : MainDialog :=
  { s with replies := s.replies.modify (fun r => { r with deleted := true }) p }

/-- The method `MainDialog::createRequest(url)`. -/
def createRequest (qt : Qt) (settings : QSettings) (url : QUrl) : QNetworkRequest :=
  let request : QNetworkRequest := { url := url, rawHeaders := [] }
  let request := request.setRawHeader "User-agent" ("YDNS Updater/" ++ qt.version)
  let concatenated :=
    (settings.value "email").toString ++ ":" ++ (settings.value "password").toString
  let data := QByteArray.toBase64 (qt.toLocal8Bit concatenated)
  let headerData := "Basic " ++ data
  request.setRawHeader "Authorization" headerData

/-- The slot `MainDialog::checkForUpdate()`. -/
def checkForUpdate (qt : Qt) (s : MainDialog) : MainDialog :=
  let url : QUrl := { address := "https://ydns.eu/api/v1/ip", queryItems := [] }
  let request := createRequest qt s.settings url
  s.getAndConnect request Slot.readReplyForCurrentAddress

/-- The slot `MainDialog::readReplyForCurrentAddress()`; `none` when `m_netReply` cannot
be dereferenced. -/
def readReplyForCurrentAddress (qt : Qt) (s : MainDialog) : Option MainDialog :=
  match s.netReply with
  | none => none
  | some (p, r) =>
      let s : MainDialog :=
        { s with
          m_lastAddress := qt.setAddress r.data,
          replies := s.replies.modify (fun r => { r with data := "" }) p }
      if s.settings.contains "lastAddress" &&
          s.m_lastAddress.eq (qt.setAddress (s.settings.value "lastAddress").toString) then
        some (s.deleteLater p)
      else
        let s := s.deleteLater p
        some { s with m_netReply := none, eventQueue := s.eventQueue ++ [Slot.updateHost] }

/-- The slot `MainDialog::readReplyForUpdate()`; `none` when `m_netReply` cannot be
dereferenced. -/
def readReplyForUpdate (qt : Qt) (s : MainDialog) : Option MainDialog :=
  match s.netReply with
  | none => none
  | some (p, r) =>
      let s : MainDialog :=
        match r.statusCode with
        | some status =>
            let host := (s.settings.value "host").toString
            let s : MainDialog :=
              if status = HTTP_STATUS_OK then
                let s := s.showMessage (tr "YDNS Updater")
                  (QString.arg (QString.arg (tr "Host \"%1\" updated successfully:\n%2") host)
                    (qt.addressToString s.m_lastAddress))
                  MessageIcon.Information
                let s : MainDialog :=
                  { s with
                    m_actionStatus :=
                      { s.m_actionStatus with
                        text := QString.arg (tr "%1: OK") host,
                        toolTip := qt.addressToString s.m_lastAddress } }
                { s with
                  settings :=
                    (s.settings.setValue "lastAddress"
                      (qt.addressToString s.m_lastAddress)).sync }
              else if status = HTTP_STATUS_BAD_REQUEST then
                let s := s.showMessage (tr "YDNS Updater")
                  (tr "Host update failed: Malformed input") MessageIcon.Critical
                { s with
                  m_actionStatus :=
                    { s.m_actionStatus with
                      text := QString.arg (tr "%1: Input error") host,
                      toolTip := tr "Input parameters are malformed" } }
              else if status = HTTP_STATUS_FORBIDDEN then
                let s := s.showMessage (tr "YDNS Updater")
                  (tr "Host update failed: Authentication failed") MessageIcon.Critical
                { s with
                  m_actionStatus :=
                    { s.m_actionStatus with
                      text := QString.arg (tr "%1: Authentication error") host,
                      toolTip := tr "Invalid authentication information" } }
              else if status = HTTP_STATUS_NOT_FOUND then
                let s := s.showMessage (tr "YDNS Updater")
                  (tr "Host update failed: Host or record not found") MessageIcon.Critical
                { s with
                  m_actionStatus :=
                    { s.m_actionStatus with
                      text := QString.arg (tr "%1: Object not found") host,
                      toolTip := tr "Host or record not found" } }
              else
                let s := s.showMessage (tr "YDNS Updater")
                  (QString.arg (tr "Host update failed: %1") r.errorString) MessageIcon.Critical
                { s with
                  m_actionStatus :=
                    { s.m_actionStatus with
                      text := QString.arg (tr "%1: Error") host,
                      toolTip := r.errorString } }
            { s with m_actionStatus := { s.m_actionStatus with enabled := true } }
        | none => s
      let s := s.deleteLater p
      some { s with m_netReply := none }

/-- The slot `MainDialog::updateHost()`. -/
def updateHost (qt : Qt) (s : MainDialog) : MainDialog :=
  let url : QUrl :=
    { address := "https://ydns.eu/api/v1/update/",
      queryItems := [("host", (s.settings.value "host").toString)] }
  let request := createRequest qt s.settings url
  s.getAndConnect request Slot.readReplyForUpdate

/-- The slot `MainDialog::on_pushButton_clicked()`. -/
def on_pushButton_clicked (s : MainDialog) : MainDialog :=
  if s.ui_host.isEmpty then
    { s with
      messageBoxes :=
        s.messageBoxes ++
          [{ title := tr "Error", text := tr "Please provide your YDNS host." }],
      focus := some FormField.host }
  else if s.ui_email.isEmpty then
    { s with
      messageBoxes :=
        s.messageBoxes ++
          [{ title := tr "Error",
             text := tr "Please provide your YDNS username or E-mail address." }],
      focus := some FormField.email }
  else if s.ui_password.isEmpty then
    { s with
      messageBoxes :=
        s.messageBoxes ++
          [{ title := tr "Error", text := tr "Please provide your YDNS password." }],
      focus := some FormField.password }
  else
    let settings := s.settings.setValue "host" s.ui_host
    let settings := settings.setValue "email" s.ui_email
    let settings := settings.setValue "password" s.ui_password
    let s : MainDialog := { s with settings := settings.sync }
    s.showMessage (tr "YDNS Updater") (tr "Your settings have been saved.")
      MessageIcon.Information

/-- Invokes a slot. -/
def invoke (qt : Qt) (slot : Slot) (s : MainDialog) : Option MainDialog :=
  match slot with
  | .checkForUpdate => some (s.checkForUpdate qt)
  | .readReplyForCurrentAddress => s.readReplyForCurrentAddress qt
  | .readReplyForUpdate => s.readReplyForUpdate qt
  | .updateHost => some (s.updateHost qt)

/-- Invokes slots one after the other. -/
def invokeAll (qt : Qt) : List Slot → MainDialog → Option MainDialog
  | [], s => some s
  | slot :: slots, s =>
      match invoke qt slot s with
      | none => none
      | some s => invokeAll qt slots s

end MainDialog

/-- What the event loop of the application delivers to the dialog.

* `timeout`: `m_timer` fires (every 300000 ms, `createTimer`);
* `deferred`: the oldest slot posted by `QTimer::singleShot(0, ...)` runs;
* `finished p body statusCode errorString`: the network call of the reply at
  `p` ends with this response (`statusCode = none`: failure at transport
  level), and the reply emits `finished()`;
* `userInput`: the user edits the three line edits;
* `pushButton`: the user clicks the save button. -/
inductive Event
  | timeout
  | deferred
  | finished (p : Nat) (body : String) (statusCode : Option Int) (errorString : String)
  | userInput (host email password : String)
  | pushButton
  deriving DecidableEq, Repr

namespace MainDialog

/-- The reply at `p` receives its response and is finished. -/
def deliver (s : MainDialog) (p : Nat) (body : String) (statusCode : Option Int)
    (errorString : String) : MainDialog :=
  { s with
    replies :=
      s.replies.modify
        (fun r =>
          { r with
            isFinished := true, data := body, statusCode := statusCode,
            errorString := errorString })
        p }

/-- One turn of the event loop; `none` when the event cannot occur in this
state or a slot dereferences an unusable `m_netReply`. -/
def step (qt : Qt) (e : Event) (s : MainDialog) : Option MainDialog :=
  match e with
  | .timeout => invoke qt Slot.checkForUpdate s
  | .deferred =>
      match s.eventQueue with
      | [] => none
      | slot :: rest => invoke qt slot { s with eventQueue := rest }
  | .finished p body statusCode errorString =>
      match s.replies[p]? with
      | none => none
      | some r =>
          if r.outstanding then
            invokeAll qt r.finishedSlots (s.deliver p body statusCode errorString)
          else none
  | .userInput host email password =>
      some { s with ui_host := host, ui_email := email, ui_password := password }
  | .pushButton => some s.on_pushButton_clicked

/-- Delivers a list of events in order. -/
def run (qt : Qt) : List Event → MainDialog → Option MainDialog
  | [], s => some s
  | e :: es, s =>
      match step qt e s with
      | none => none
      | some s => run qt es s

/-- Number of network calls that are still on their way. -/
def outstandingReplies (s : MainDialog) : Nat :=
  (s.replies.filter QNetworkReply.outstanding).length

/-- Work of update cycles that is still ahead: outstanding network calls and
posted slots. -/
def inFlight (s : MainDialog) : Nat :=
  s.outstandingReplies + s.eventQueue.length

/-- The states the dialog can get into: those that some list of events leads
to from the state after the constructor, for some settings store. -/
def Reachable (qt : Qt) (s : MainDialog) : Prop :=
  ∃ settings events, run qt events (init settings) = some s

/-- Every reply is connected to exactly one of the two reply slots, as
`checkForUpdate` and `updateHost` connect them. -/
def SlotsConnected (s : MainDialog) : Prop :=
  ∀ r ∈ s.replies,
    r.finishedSlots = [Slot.readReplyForCurrentAddress] ∨
      r.finishedSlots = [Slot.readReplyForUpdate]

/-- Whether a reply belongs to an update request. -/
def isUpdateRequest (r : QNetworkReply) : Bool :=
  decide (r.request.url.address = "https://ydns.eu/api/v1/update/")

/-- Whether a reply belongs to an address query. -/
def isAddressQuery (r : QNetworkReply) : Bool :=
  decide (r.request.url.address = "https://ydns.eu/api/v1/ip")

end MainDialog

/-! ## A concrete configuration

Version string `0.1`, ISO 8859-1 as local 8-bit codec, and dotted-decimal IPv4
addresses as the textual form of `QHostAddress`. It serves to evaluate the
dialog on concrete inputs. -/

namespace Sample

/-- The Latin-1 codec: a character outside Latin-1 becomes `?`. -/
def toLatin1 (text : String) : List Byte :=
  text.data.map (fun c =>
    if h : c.toNat < 256 then (⟨c.toNat, h⟩ : Byte) else (⟨63, by decide⟩ : Byte))

/-- Reads Latin-1 bytes back as text. -/
def fromLatin1 (bytes : List Byte) : String :=
  String.mk (bytes.map (fun b => Char.ofNat b.val))

/-- Cuts a text at its dots. -/
def splitDots : List Char → List (List Char)
  | [] => [[]]
  | c :: cs =>
      match splitDots cs with
      | [] => [[]]
      | part :: parts => if c = '.' then [] :: part :: parts else (c :: part) :: parts

/-- One decimal field of a dotted address: one to three digits, no leading
zero, at most 255. -/
def parseOctet (cs : List Char) : Option Nat :=
  if cs ≠ [] ∧ cs.length ≤ 3 ∧ cs.all Char.isDigit ∧ (cs.length = 1 ∨ cs.head? ≠ some '0') then
    let n := cs.foldl (fun n c => 10 * n + (c.toNat - 48)) 0
    if n ≤ 255 then some n else none
  else none

/-- Parses `a.b.c.d`; every other text gives the null address. -/
def setAddress (text : String) : QHostAddress :=
  match (splitDots text.data).map parseOctet with
  | [some a, some b, some c, some d] =>
      QHostAddress.ipv4 (((a * 256 + b) * 256 + c) * 256 + d)
  | _ => QHostAddress.null

/-- Text of an address: empty for the null address, `a.b.c.d` for IPv4, eight
hexadecimal groups for IPv6. -/
def addressToString : QHostAddress → String
  | .null => ""
  | .ipv4 a =>
      ".".intercalate
        [Nat.repr (a / 16777216 % 256), Nat.repr (a / 65536 % 256),
         Nat.repr (a / 256 % 256), Nat.repr (a % 256)]
  | .ipv6 a6 =>
      ":".intercalate
        ((List.range 8).map (fun i =>
          String.mk (Nat.toDigits 16 (a6 / 65536 ^ (7 - i) % 65536))))

/-- The concrete configuration. -/
def qt : Qt :=
  { version := "0.1",
    toLocal8Bit := toLatin1,
    setAddress := setAddress,
    addressToString := addressToString }

/-- Settings of a configured installation whose last update registered
`1.2.3.4`. -/
def settings : QSettings :=
  { entries :=
      [("lastAddress", "1.2.3.4"), ("password", "secret"), ("email", "me@example.org"),
       ("host", "home.ydns.eu")],
    writes := [] }

/-- The dialog right after start with the settings above. -/
def dialog : MainDialog := MainDialog.init settings

/-- The dialog after the given events, counted from the start. -/
def after (events : List Event) : MainDialog :=
  (MainDialog.run qt events dialog).getD dialog

/-- The dialog after a first cycle that found the address unchanged: no slot
is pending and no request is outstanding. -/
def idle : MainDialog :=
  after [Event.deferred, Event.finished 0 "1.2.3.4" (some 200) ""]

/-- The reply object at `p`. -/
def replyAt (s : MainDialog) (p : Nat) : QNetworkReply :=
  s.replies.getD p
    (QNetworkReply.pending
      { url := { address := "", queryItems := [] }, rawHeaders := [] })

/-- The first address query has been sent and is answered with `body`; the
slot of the reply is about to run. -/
def queryAnswered (body : String) (statusCode : Option Int) : MainDialog :=
  (after [Event.deferred]).deliver 0 body statusCode ""

/-- The address query gave `5.6.7.8`, the update request has been sent and is
answered with `statusCode`; the slot of the reply is about to run. -/
def updateAnswered (statusCode : Option Int) (errorString : String) : MainDialog :=
  (after [Event.deferred, Event.finished 0 "5.6.7.8" (some 200) "", Event.deferred]).deliver 1
    "" statusCode errorString

end Sample

/-! ## The outcome table of the specification -/

/-- Outcome kinds of an update call, as the specification names them. -/
inductive UpdateOutcome
  | Success
  | InputError
  | AuthError
  | NotFound
  | TransportError
  deriving DecidableEq, Repr

namespace OutcomeClassifier

/-- The classifier table of the specification for a reply that carries a
status code: 200, 400, 403, 404, and the generic error for any other status. -/
def classify (status : Int) : UpdateOutcome :=
  if status = 200 then UpdateOutcome.Success
  else if status = 400 then UpdateOutcome.InputError
  else if status = 403 then UpdateOutcome.AuthError
  else if status = 404 then UpdateOutcome.NotFound
  else UpdateOutcome.TransportError

/-- The host-qualified status label of each outcome. -/
def statusLabel (host : String) : UpdateOutcome → String
  | .Success => host ++ ": OK"
  | .InputError => host ++ ": Input error"
  | .AuthError => host ++ ": Authentication error"
  | .NotFound => host ++ ": Object not found"
  | .TransportError => host ++ ": Error"

end OutcomeClassifier

/-! ## Lemmas on the Qt value classes -/

theorem QString.arg_OK (host : String) :
    QString.arg "%1: OK" host = host ++ ": OK" := rfl

theorem QString.arg_Input_error (host : String) :
    QString.arg "%1: Input error" host = host ++ ": Input error" := rfl

theorem QString.arg_Authentication_error (host : String) :
    QString.arg "%1: Authentication error" host = host ++ ": Authentication error" :=
  rfl

theorem QString.arg_Object_not_found (host : String) :
    QString.arg "%1: Object not found" host = host ++ ": Object not found" := rfl

theorem QString.arg_Error (host : String) :
    QString.arg "%1: Error" host = host ++ ": Error" := rfl

theorem String.append_left_cancel_iff (h a b : String) : h ++ a = h ++ b ↔ a = b := by
  constructor
  · intro e
    have e2 : (h ++ a).data = (h ++ b).data := by rw [e]
    rw [String.data_append, String.data_append] at e2
    exact String.ext (List.append_cancel_left e2)
  · intro e
    rw [e]

theorem QHostAddress.eq_iff (x y : QHostAddress) : x.eq y = true ↔ x = y := by
  cases x <;> cases y <;> simp [QHostAddress.eq]

namespace QSettings

theorem value_setValue_self (s : QSettings) (key v : String) :
    (s.setValue key v).value key = some v := by
  simp [setValue, value]

theorem value_setValue_of_ne (s : QSettings) (key v other : String) (h : other ≠ key) :
    (s.setValue key v).value other = s.value other := by
  have hne : ¬ key = other := fun e => h e.symm
  simp only [setValue, value, List.find?_cons, hne, decide_False]
  congr 1
  induction s.entries with
  | nil => rfl
  | cons e es ih =>
      by_cases h1 : e.1 = key
      · have h2 : ¬ e.1 = other := fun e2 => hne (h1.symm.trans e2)
        simp [List.filter_cons, List.find?_cons, h1, h2, hne]
        simpa [h1] using ih
      · by_cases h2 : e.1 = other
        · simp [List.filter_cons, List.find?_cons, h1, h2]
          simp [h, List.find?_cons, h2]
        · simp [List.filter_cons, List.find?_cons, h1, h2]
          simpa [h1] using ih

theorem contains_eq_isSome (s : QSettings) (key : String) :
    s.contains key = (s.value key).isSome := by
  simp only [contains, value]
  induction s.entries with
  | nil => rfl
  | cons e es ih =>
      by_cases h1 : e.1 = key
      · simp [List.find?_cons, h1]
      · simp [List.find?_cons, h1]
        simpa using ih

theorem contains_setValue_of_ne (s : QSettings) (key v other : String) (h : other ≠ key) :
    (s.setValue key v).contains other = s.contains other := by
  rw [contains_eq_isSome, contains_eq_isSome, value_setValue_of_ne s key v other h]

theorem writes_setValue (s : QSettings) (key v : String) :
    (s.setValue key v).writes = s.writes ++ [(key, v)] := rfl

end QSettings

/-! ## The update reply (C1, C2) -/

/-- C1. For a reply that `readReplyForUpdate` can read, the handler returns,
and the key `lastAddress` is written (with the text of `m_lastAddress`) exactly
when the reply carries status 200; with any other status, or none, the
settings after the call are the settings before it. -/
theorem C1_lastAddress_written_iff_status_200 (qt : Qt) (s : MainDialog) (p : Nat)
    (r : QNetworkReply) (h : s.netReply = some (p, r)) :
    ∃ s', s.readReplyForUpdate qt = some s' ∧
      (s'.settings.writes =
          s.settings.writes ++ [("lastAddress", qt.addressToString s.m_lastAddress)] ↔
        r.statusCode = some 200) ∧
      (r.statusCode = some 200 →
        s'.settings = s.settings.setValue "lastAddress" (qt.addressToString s.m_lastAddress)) ∧
      (r.statusCode ≠ some 200 → s'.settings = s.settings) := by
  unfold MainDialog.readReplyForUpdate
  rw [h]
  obtain ⟨req, slots, fin, data, sc, err, del⟩ := r
  rcases sc with _ | status
  · simp [MainDialog.deleteLater]
  · by_cases h200 : status = 200
    · subst h200
      simp [MainDialog.deleteLater, MainDialog.showMessage, HTTP_STATUS_OK, QSettings.sync,
        QSettings.writes_setValue]
    · simp [h200, MainDialog.deleteLater, MainDialog.showMessage, HTTP_STATUS_OK,
        HTTP_STATUS_BAD_REQUEST, HTTP_STATUS_FORBIDDEN, HTTP_STATUS_NOT_FOUND]
      split_ifs <;> simp

/-- C2. A reply with status code `status` gets the status label of exactly
one of five cases, always qualified by the configured host: `OK` exactly for
200, `Input error` exactly for 400, `Authentication error` exactly for 403,
`Object not found` exactly for 404, and `Error` exactly for every other
status, then with the error string of the reply as detail. The label is the
one of the specification's classifier table. -/
theorem C2_status_classification (qt : Qt) (s : MainDialog) (p : Nat) (r : QNetworkReply)
    (status : Int) (h : s.netReply = some (p, r)) (hs : r.statusCode = some status) :
    ∃ s', s.readReplyForUpdate qt = some s' ∧
      s'.m_actionStatus.text =
        OutcomeClassifier.statusLabel (s.settings.value "host").toString
          (OutcomeClassifier.classify status) ∧
      s'.m_actionStatus.enabled = true ∧
      (s'.m_actionStatus.text = (s.settings.value "host").toString ++ ": OK" ↔
        status = 200) ∧
      (s'.m_actionStatus.text = (s.settings.value "host").toString ++ ": Input error" ↔
        status = 400) ∧
      (s'.m_actionStatus.text =
          (s.settings.value "host").toString ++ ": Authentication error" ↔
        status = 403) ∧
      (s'.m_actionStatus.text = (s.settings.value "host").toString ++ ": Object not found" ↔
        status = 404) ∧
      (s'.m_actionStatus.text = (s.settings.value "host").toString ++ ": Error" ↔
        status ≠ 200 ∧ status ≠ 400 ∧ status ≠ 403 ∧ status ≠ 404) ∧
      (status ≠ 200 ∧ status ≠ 400 ∧ status ≠ 403 ∧ status ≠ 404 →
        s'.m_actionStatus.toolTip = r.errorString ∧
        s'.trayMessages = s.trayMessages ++
          [{ title := "YDNS Updater",
             message := QString.arg "Host update failed: %1" r.errorString,
             icon := MessageIcon.Critical }]) := by
  unfold MainDialog.readReplyForUpdate
  rw [h]
  obtain ⟨req, slots, fin, data, sc, err, del⟩ := r
  simp only at hs
  subst hs
  by_cases h200 : status = 200
  · subst h200
    simp [MainDialog.deleteLater, MainDialog.showMessage, HTTP_STATUS_OK,
      OutcomeClassifier.classify, OutcomeClassifier.statusLabel, QString.arg_OK,
      String.append_left_cancel_iff, tr]
  · by_cases h400 : status = 400
    · subst h400
      simp [MainDialog.deleteLater, MainDialog.showMessage, HTTP_STATUS_OK,
        HTTP_STATUS_BAD_REQUEST, OutcomeClassifier.classify, OutcomeClassifier.statusLabel,
        QString.arg_Input_error, String.append_left_cancel_iff, tr]
    · by_cases h403 : status = 403
      · subst h403
        simp [MainDialog.deleteLater, MainDialog.showMessage, HTTP_STATUS_OK,
          HTTP_STATUS_BAD_REQUEST, HTTP_STATUS_FORBIDDEN, OutcomeClassifier.classify,
          OutcomeClassifier.statusLabel, QString.arg_Authentication_error,
          String.append_left_cancel_iff, tr]
      · by_cases h404 : status = 404
        · subst h404
          simp [MainDialog.deleteLater, MainDialog.showMessage, HTTP_STATUS_OK,
            HTTP_STATUS_BAD_REQUEST, HTTP_STATUS_FORBIDDEN, HTTP_STATUS_NOT_FOUND,
            OutcomeClassifier.classify, OutcomeClassifier.statusLabel,
            QString.arg_Object_not_found, String.append_left_cancel_iff, tr]
        · simp [h200, h400, h403, h404, MainDialog.deleteLater, MainDialog.showMessage,
            HTTP_STATUS_OK, HTTP_STATUS_BAD_REQUEST, HTTP_STATUS_FORBIDDEN,
            HTTP_STATUS_NOT_FOUND, OutcomeClassifier.classify, OutcomeClassifier.statusLabel,
            QString.arg_Error, String.append_left_cancel_iff, tr]

/-! ## Requests (C4, C8) -/

theorem QNetworkRequest.sameHeaderName_agent :
    QNetworkRequest.sameHeaderName "User-agent" "User-Agent" = true := by decide

theorem QNetworkRequest.sameHeaderName_agent_auth :
    QNetworkRequest.sameHeaderName "User-agent" "Authorization" = false := by decide

theorem QNetworkRequest.sameHeaderName_auth_agent :
    QNetworkRequest.sameHeaderName "Authorization" "User-Agent" = false := by decide

theorem QNetworkRequest.sameHeaderName_auth :
    QNetworkRequest.sameHeaderName "Authorization" "Authorization" = true := by decide

theorem QByteArray.sextet_alphabet : ∀ i : Fin 64, sextet (alphabet i.val) = some i.val := by
  decide

theorem QByteArray.sextet_alphabet_lt (i : Nat) (h : i < 64) :
    sextet (alphabet i) = some i :=
  sextet_alphabet ⟨i, h⟩

theorem QByteArray.sextet_pad : sextet '=' = none := by decide

theorem QByteArray.decodeGo_encodeChunk : ∀ (n : Nat) (bs : List Byte), bs.length ≤ n →
    decodeGo 0 0 (encodeChunk bs) = bs := by
  intro n
  induction n using Nat.strong_induction_on with
  | _ n ih =>
    intro bs hlen
    match bs, hlen with
    | [], _ => rfl
    | [a], _ =>
      obtain ⟨a, ha⟩ := a
      simp only [encodeChunk, decodeGo]
      rw [sextet_alphabet_lt _ (Nat.mod_lt _ (by decide))]
      simp only
      rw [sextet_alphabet_lt _ (Nat.mod_lt _ (by decide))]
      simp [sextet_pad, decodeGo]
      omega
    | [a, b], _ =>
      obtain ⟨a, ha⟩ := a
      obtain ⟨b, hb⟩ := b
      simp only [encodeChunk, decodeGo]
      rw [sextet_alphabet_lt _ (Nat.mod_lt _ (by decide))]
      simp only
      rw [sextet_alphabet_lt _ (Nat.mod_lt _ (by decide))]
      simp only
      rw [sextet_alphabet_lt _ (Nat.mod_lt _ (by decide))]
      simp [sextet_pad, decodeGo]
      constructor <;> omega
    | a :: b :: c :: rest, h =>
      obtain ⟨a, ha⟩ := a
      obtain ⟨b, hb⟩ := b
      obtain ⟨c, hc⟩ := c
      have hrest : decodeGo 0 0 (encodeChunk rest) = rest :=
        ih rest.length (by simp at h; omega) rest (le_refl _)
      simp only [encodeChunk, decodeGo]
      rw [sextet_alphabet_lt _ (Nat.mod_lt _ (by decide))]
      simp only
      rw [sextet_alphabet_lt _ (Nat.mod_lt _ (by decide))]
      simp only
      rw [sextet_alphabet_lt _ (Nat.mod_lt _ (by decide))]
      simp only
      rw [sextet_alphabet_lt _ (Nat.mod_lt _ (by decide))]
      simp
      refine ⟨by omega, by omega, by omega, ?_⟩
      rw [Nat.mod_one]
      exact hrest

theorem QByteArray.fromBase64_toBase64 (bs : List Byte) : fromBase64 (toBase64 bs) = bs :=
  decodeGo_encodeChunk bs.length bs (le_refl _)

/-- C8, as the code has it. The request of `createRequest` targets the given
URL, carries the header `User-Agent` with value `YDNS Updater/<version>` and
the header `Authorization` with value `Basic ` followed by the base64 text of
the bytes that `toLocal8Bit` gives for `email:password`; decoding the text
after `Basic ` gives exactly these bytes back, and the string `email:password`
itself only where the local codec can be inverted on it. The
address query and the update request are both built by `createRequest`, for
`https://ydns.eu/api/v1/ip` and for `https://ydns.eu/api/v1/update/` with the
query item `host`. -/
theorem C8_request_headers (qt : Qt) (settings : QSettings) (url : QUrl) (s : MainDialog) :
    (MainDialog.createRequest qt settings url).url = url ∧
    (MainDialog.createRequest qt settings url).rawHeader "User-Agent" =
      some ("YDNS Updater/" ++ qt.version) ∧
    (MainDialog.createRequest qt settings url).rawHeader "Authorization" =
      some ("Basic " ++ QByteArray.toBase64 (qt.toLocal8Bit
        ((settings.value "email").toString ++ ":" ++ (settings.value "password").toString))) ∧
    (((MainDialog.createRequest qt settings url).rawHeader "Authorization").map
        (fun v => QByteArray.fromBase64 (String.mk (v.data.drop 6)))) =
      some (qt.toLocal8Bit
        ((settings.value "email").toString ++ ":" ++ (settings.value "password").toString)) ∧
    (∀ fromLocal8Bit : List Byte → String,
      fromLocal8Bit (qt.toLocal8Bit
          ((settings.value "email").toString ++ ":" ++ (settings.value "password").toString)) =
        (settings.value "email").toString ++ ":" ++ (settings.value "password").toString →
      (((MainDialog.createRequest qt settings url).rawHeader "Authorization").map
          (fun v => fromLocal8Bit (QByteArray.fromBase64 (String.mk (v.data.drop 6))))) =
        some ((settings.value "email").toString ++ ":" ++
          (settings.value "password").toString)) ∧
    (MainDialog.createRequest qt settings url).rawHeaders.length = 2 ∧
    (s.checkForUpdate qt).replies = s.replies ++
      [{ QNetworkReply.pending (MainDialog.createRequest qt s.settings
            { address := "https://ydns.eu/api/v1/ip", queryItems := [] }) with
          finishedSlots := [Slot.readReplyForCurrentAddress] }] ∧
    (s.updateHost qt).replies = s.replies ++
      [{ QNetworkReply.pending (MainDialog.createRequest qt s.settings
            { address := "https://ydns.eu/api/v1/update/",
              queryItems := [("host", (s.settings.value "host").toString)] }) with
          finishedSlots := [Slot.readReplyForUpdate] }] := by
  have hdec : (((MainDialog.createRequest qt settings url).rawHeader "Authorization").map
      (fun v => QByteArray.fromBase64 (String.mk (v.data.drop 6)))) =
      some (qt.toLocal8Bit
        ((settings.value "email").toString ++ ":" ++
          (settings.value "password").toString)) := by
    simp [MainDialog.createRequest, QNetworkRequest.setRawHeader, QNetworkRequest.rawHeader,
      QNetworkRequest.sameHeaderName_agent, QNetworkRequest.sameHeaderName_agent_auth,
      QNetworkRequest.sameHeaderName_auth_agent, QNetworkRequest.sameHeaderName_auth]
    exact QByteArray.fromBase64_toBase64 _
  refine ⟨rfl, ?_, ?_, hdec, ?_, ?_, rfl, rfl⟩
  · simp [MainDialog.createRequest, QNetworkRequest.setRawHeader, QNetworkRequest.rawHeader,
      QNetworkRequest.sameHeaderName_agent, QNetworkRequest.sameHeaderName_agent_auth,
      QNetworkRequest.sameHeaderName_auth_agent, QNetworkRequest.sameHeaderName_auth]
  · simp [MainDialog.createRequest, QNetworkRequest.setRawHeader, QNetworkRequest.rawHeader,
      QNetworkRequest.sameHeaderName_agent, QNetworkRequest.sameHeaderName_agent_auth,
      QNetworkRequest.sameHeaderName_auth_agent, QNetworkRequest.sameHeaderName_auth]
  · intro fromLocal8Bit hinv
    rcases hv : (MainDialog.createRequest qt settings url).rawHeader "Authorization" with
      _ | v
    · rw [hv] at hdec
      exact Option.noConfusion hdec
    · rw [hv] at hdec
      simp only [Option.map_some', Option.some.injEq] at hdec ⊢
      rw [hdec, hinv]
  · simp [MainDialog.createRequest, QNetworkRequest.setRawHeader,
      QNetworkRequest.sameHeaderName_agent_auth]

/-- C8 fails on the code. With Latin-1 as local codec the emails `€` and `?`
(password `x`) give the same `Authorization` header, `Basic Pzp4`: the euro
sign has no Latin-1 byte and `toLocal8Bit` replaces it by `?`. Decoding the
header gives the bytes of `?:x`, which are not the characters of `€:x`. -/
theorem C8_counterexample :
    (MainDialog.createRequest Sample.qt
        { entries := [("email", "€"), ("password", "x")], writes := [] }
        { address := "https://ydns.eu/api/v1/ip", queryItems := [] }).rawHeader
      "Authorization" = some "Basic Pzp4" ∧
    (MainDialog.createRequest Sample.qt
        { entries := [("email", "?"), ("password", "x")], writes := [] }
        { address := "https://ydns.eu/api/v1/ip", queryItems := [] }).rawHeader
      "Authorization" = some "Basic Pzp4" ∧
    (QByteArray.fromBase64 "Pzp4").map Fin.val = [63, 58, 120] ∧
    "?:x".data.map Char.toNat = [63, 58, 120] ∧
    "€:x".data.map Char.toNat = [8364, 58, 120] ∧
    Sample.fromLatin1 (QByteArray.fromBase64 "Pzp4") ≠ "€:x" := by
  decide

/-- C8 at a concrete input: with Latin-1 as local codec and the credentials
`me@example.org` and `secret`, which Latin-1 can represent, decoding the text
after `Basic ` gives back `me@example.org:secret`. -/
theorem C8_witness :
    Sample.fromLatin1 (Sample.qt.toLocal8Bit
        ((Sample.settings.value "email").toString ++ ":" ++
          (Sample.settings.value "password").toString)) =
      (Sample.settings.value "email").toString ++ ":" ++
        (Sample.settings.value "password").toString ∧
    ((MainDialog.createRequest Sample.qt Sample.settings
          { address := "https://ydns.eu/api/v1/ip", queryItems := [] }).rawHeader
        "Authorization").map
      (fun v => Sample.fromLatin1 (QByteArray.fromBase64 (String.mk (v.data.drop 6)))) =
        some "me@example.org:secret" := by
  refine ⟨by decide, ?_⟩
  exact ((C8_request_headers Sample.qt Sample.settings
    { address := "https://ydns.eu/api/v1/ip", queryItems := [] } Sample.dialog).2.2.2.2.1
      Sample.fromLatin1 (by decide)).trans (by decide)

theorem MainDialog.on_pushButton_clicked_rejects (s : MainDialog)
    (h : s.ui_host = "" ∨ s.ui_email = "" ∨ s.ui_password = "") :
    s.on_pushButton_clicked.settings = s.settings ∧
      s.on_pushButton_clicked.messageBoxes.length = s.messageBoxes.length + 1 := by
  have hh : s.ui_host.isEmpty = true ↔ s.ui_host = "" := String.isEmpty_iff _
  have he : s.ui_email.isEmpty = true ↔ s.ui_email = "" := String.isEmpty_iff _
  have hp : s.ui_password.isEmpty = true ↔ s.ui_password = "" := String.isEmpty_iff _
  unfold MainDialog.on_pushButton_clicked
  by_cases h1 : s.ui_host = ""
  · rw [if_pos (hh.mpr h1)]
    simp
  · have n1 : ¬ s.ui_host.isEmpty = true := fun e => h1 (hh.mp e)
    rw [if_neg n1]
    by_cases h2 : s.ui_email = ""
    · rw [if_pos (he.mpr h2)]
      simp
    · have n2 : ¬ s.ui_email.isEmpty = true := fun e => h2 (he.mp e)
      rw [if_neg n2]
      by_cases h3 : s.ui_password = ""
      · rw [if_pos (hp.mpr h3)]
        simp
      · rcases h with h | h | h
        · exact absurd h h1
        · exact absurd h h2
        · exact absurd h h3

/-- C4, as the code has it. Neither `checkForUpdate` nor `updateHost` looks
at the stored credentials before the network call: for every settings store,
also one with an empty or absent host, email or password, each issues exactly
one request, which is then outstanding, shows no message box and no tray
message, and builds the `Authorization` header and the query item `host` from
the stored texts, an absent one read as the empty string. An empty field is
rejected only when the form is saved: `on_pushButton_clicked` then shows a
message box and leaves the settings as they are. -/
theorem C4_requests_issued_without_validation (qt : Qt) (s : MainDialog) :
    (s.checkForUpdate qt).replies.length = s.replies.length + 1 ∧
    (s.updateHost qt).replies.length = s.replies.length + 1 ∧
    (s.checkForUpdate qt).outstandingReplies = s.outstandingReplies + 1 ∧
    (s.updateHost qt).outstandingReplies = s.outstandingReplies + 1 ∧
    (s.checkForUpdate qt).messageBoxes = s.messageBoxes ∧
    (s.updateHost qt).messageBoxes = s.messageBoxes ∧
    (s.checkForUpdate qt).trayMessages = s.trayMessages ∧
    (s.updateHost qt).trayMessages = s.trayMessages ∧
    (s.checkForUpdate qt).m_actionStatus = s.m_actionStatus ∧
    (s.updateHost qt).m_actionStatus = s.m_actionStatus ∧
    (s.settings.value "email" = none → s.settings.value "password" = none →
      (MainDialog.createRequest qt s.settings
          { address := "https://ydns.eu/api/v1/ip", queryItems := [] }).rawHeader
        "Authorization" = some ("Basic " ++ QByteArray.toBase64 (qt.toLocal8Bit ":"))) ∧
    (s.settings.value "host" = none →
      ∃ r, (s.updateHost qt).replies = s.replies ++ [r] ∧
        r.request.url =
          { address := "https://ydns.eu/api/v1/update/", queryItems := [("host", "")] }) ∧
    (s.ui_host = "" ∨ s.ui_email = "" ∨ s.ui_password = "" →
      s.on_pushButton_clicked.settings = s.settings ∧
      s.on_pushButton_clicked.messageBoxes.length = s.messageBoxes.length + 1) := by
  refine ⟨?_, ?_, ?_, ?_, rfl, rfl, rfl, rfl, rfl, rfl, ?_, ?_,
    MainDialog.on_pushButton_clicked_rejects s⟩
  · simp [MainDialog.checkForUpdate, MainDialog.getAndConnect]
  · simp [MainDialog.updateHost, MainDialog.getAndConnect]
  · simp [MainDialog.checkForUpdate, MainDialog.getAndConnect, MainDialog.outstandingReplies,
      List.filter_append, QNetworkReply.outstanding, QNetworkReply.pending]
  · simp [MainDialog.updateHost, MainDialog.getAndConnect, MainDialog.outstandingReplies,
      List.filter_append, QNetworkReply.outstanding, QNetworkReply.pending]
  · intro he hp
    simp [MainDialog.createRequest, QNetworkRequest.setRawHeader, QNetworkRequest.rawHeader,
      QNetworkRequest.sameHeaderName_agent_auth, QNetworkRequest.sameHeaderName_auth, he, hp,
      QVariant.toString]
  · intro hhost
    refine ⟨_, rfl, ?_⟩
    simp [QNetworkReply.pending, MainDialog.createRequest, QNetworkRequest.setRawHeader,
      hhost, QVariant.toString]

/-- C4 fails on the code: with an empty settings store (no host, no email, no
password) `checkForUpdate` and `updateHost` each issue a network request, and
nothing is reported. -/
theorem C4_counterexample :
    ((MainDialog.init { entries := [], writes := [] }).checkForUpdate Sample.qt).replies.length
        = 1 ∧
    ((MainDialog.init { entries := [], writes := [] }).updateHost Sample.qt).replies.length
        = 1 ∧
    ((MainDialog.init { entries := [], writes := [] }).checkForUpdate Sample.qt).messageBoxes
        = [] ∧
    ((MainDialog.init { entries := [], writes := [] }).updateHost Sample.qt).messageBoxes
        = [] := by
  decide

/-! ## Saving the form (C10) -/

/-- C10. `on_pushButton_clicked` writes to the settings exactly when host,
email and password are all non-empty, and then it writes the keys `host`,
`email`, `password` with the field values; with an empty field the settings
stay as they are and the first empty field, in the order host, email,
password, gets the message box and the focus. The key `lastAddress` keeps its
value in every case. -/
theorem C10_save_all_or_nothing (s : MainDialog) :
    (s.on_pushButton_clicked.settings.writes ≠ s.settings.writes ↔
      s.ui_host ≠ "" ∧ s.ui_email ≠ "" ∧ s.ui_password ≠ "") ∧
    (s.ui_host ≠ "" ∧ s.ui_email ≠ "" ∧ s.ui_password ≠ "" →
      s.on_pushButton_clicked.settings.writes = s.settings.writes ++
        [("host", s.ui_host), ("email", s.ui_email), ("password", s.ui_password)] ∧
      s.on_pushButton_clicked.settings.value "host" = some s.ui_host ∧
      s.on_pushButton_clicked.settings.value "email" = some s.ui_email ∧
      s.on_pushButton_clicked.settings.value "password" = some s.ui_password ∧
      s.on_pushButton_clicked.messageBoxes = s.messageBoxes) ∧
    (s.ui_host = "" ∨ s.ui_email = "" ∨ s.ui_password = "" →
      s.on_pushButton_clicked.settings = s.settings) ∧
    (s.ui_host = "" →
      s.on_pushButton_clicked.focus = some FormField.host ∧
      s.on_pushButton_clicked.messageBoxes =
        s.messageBoxes ++
          [{ title := "Error", text := "Please provide your YDNS host." }]) ∧
    (s.ui_host ≠ "" → s.ui_email = "" →
      s.on_pushButton_clicked.focus = some FormField.email ∧
      s.on_pushButton_clicked.messageBoxes =
        s.messageBoxes ++
          [{ title := "Error",
             text := "Please provide your YDNS username or E-mail address." }]) ∧
    (s.ui_host ≠ "" → s.ui_email ≠ "" → s.ui_password = "" →
      s.on_pushButton_clicked.focus = some FormField.password ∧
      s.on_pushButton_clicked.messageBoxes =
        s.messageBoxes ++
          [{ title := "Error", text := "Please provide your YDNS password." }]) ∧
    s.on_pushButton_clicked.settings.value "lastAddress" = s.settings.value "lastAddress" ∧
    s.on_pushButton_clicked.settings.contains "lastAddress" =
      s.settings.contains "lastAddress" := by
  have hh : s.ui_host.isEmpty = true ↔ s.ui_host = "" := String.isEmpty_iff _
  have he : s.ui_email.isEmpty = true ↔ s.ui_email = "" := String.isEmpty_iff _
  have hp : s.ui_password.isEmpty = true ↔ s.ui_password = "" := String.isEmpty_iff _
  unfold MainDialog.on_pushButton_clicked
  by_cases h1 : s.ui_host = ""
  · rw [if_pos (hh.mpr h1)]
    simp [h1, tr]
  · by_cases h2 : s.ui_email = ""
    · have n1 : ¬ s.ui_host.isEmpty = true := fun e => h1 (hh.mp e)
      rw [if_neg n1, if_pos (he.mpr h2)]
      simp [h1, h2, tr]
    · by_cases h3 : s.ui_password = ""
      · have n1 : ¬ s.ui_host.isEmpty = true := fun e => h1 (hh.mp e)
        have n2 : ¬ s.ui_email.isEmpty = true := fun e => h2 (he.mp e)
        rw [if_neg n1, if_neg n2, if_pos (hp.mpr h3)]
        simp [h1, h2, h3, tr]
      · have n1 : ¬ s.ui_host.isEmpty = true := fun e => h1 (hh.mp e)
        have n2 : ¬ s.ui_email.isEmpty = true := fun e => h2 (he.mp e)
        have n3 : ¬ s.ui_password.isEmpty = true := fun e => h3 (hp.mp e)
        rw [if_neg n1, if_neg n2, if_neg n3]
        simp only [MainDialog.showMessage, QSettings.sync]
        refine ⟨?_, ?_, ?_, ?_, ?_, ?_, ?_, ?_⟩
        · simp [QSettings.writes_setValue, h1, h2, h3]
        · intro _
          refine ⟨by simp [QSettings.writes_setValue], ?_, ?_, ?_, trivial⟩
          · rw [QSettings.value_setValue_of_ne _ _ _ _ (by decide),
              QSettings.value_setValue_of_ne _ _ _ _ (by decide),
              QSettings.value_setValue_self]
          · rw [QSettings.value_setValue_of_ne _ _ _ _ (by decide),
              QSettings.value_setValue_self]
          · rw [QSettings.value_setValue_self]
        · intro h
          rcases h with h | h | h
          · exact absurd h h1
          · exact absurd h h2
          · exact absurd h h3
        · intro h
          exact absurd h h1
        · intro _ h
          exact absurd h h2
        · intro _ _ h
          exact absurd h h3
        · rw [QSettings.value_setValue_of_ne _ _ _ _ (by decide),
            QSettings.value_setValue_of_ne _ _ _ _ (by decide),
            QSettings.value_setValue_of_ne _ _ _ _ (by decide)]
        · rw [QSettings.contains_setValue_of_ne _ _ _ _ (by decide),
            QSettings.contains_setValue_of_ne _ _ _ _ (by decide),
            QSettings.contains_setValue_of_ne _ _ _ _ (by decide)]

/-! ## The address reply (C3, C5, C6) -/

/-- What `readReplyForCurrentAddress` does with a reply it can read: it keeps
the parsed body in `m_lastAddress`, leaves settings, presentation and the
number of replies alone, and posts `updateHost` unless the key `lastAddress`
is present and its parsed value equals the parsed body. -/
theorem MainDialog.readReplyForCurrentAddress_spec (qt : Qt) (s : MainDialog) (p : Nat)
    (r : QNetworkReply) (h : s.netReply = some (p, r)) :
    ∃ s', s.readReplyForCurrentAddress qt = some s' ∧
      s'.m_lastAddress = qt.setAddress r.data ∧
      s'.settings = s.settings ∧
      s'.replies.length = s.replies.length ∧
      s'.trayMessages = s.trayMessages ∧
      s'.m_actionStatus = s.m_actionStatus ∧
      s'.eventQueue =
        (if s.settings.contains "lastAddress" = true ∧
            qt.setAddress r.data = qt.setAddress (s.settings.value "lastAddress").toString
          then s.eventQueue else s.eventQueue ++ [Slot.updateHost]) ∧
      s'.replies =
        List.modify (fun r => { r with deleted := true }) p
          (List.modify (fun r => { r with data := "" }) p s.replies) ∧
      s'.m_netReply =
        (if s.settings.contains "lastAddress" = true ∧
            qt.setAddress r.data = qt.setAddress (s.settings.value "lastAddress").toString
          then s.m_netReply else none) := by
  unfold MainDialog.readReplyForCurrentAddress
  rw [h]
  by_cases hc : s.settings.contains "lastAddress" = true ∧
      qt.setAddress r.data = qt.setAddress (s.settings.value "lastAddress").toString
  · rw [if_pos hc, if_pos hc]
    have hb : (s.settings.contains "lastAddress" &&
        (qt.setAddress r.data).eq
          (qt.setAddress (s.settings.value "lastAddress").toString)) = true := by
      rw [Bool.and_eq_true]
      exact ⟨hc.1, (QHostAddress.eq_iff _ _).mpr hc.2⟩
    simp [hb, MainDialog.deleteLater]
  · rw [if_neg hc, if_neg hc]
    have hb : (s.settings.contains "lastAddress" &&
        (qt.setAddress r.data).eq
          (qt.setAddress (s.settings.value "lastAddress").toString)) = false := by
      rw [Bool.and_eq_false_iff]
      by_cases h1 : s.settings.contains "lastAddress" = true
      · right
        have h2 : ¬ qt.setAddress r.data =
            qt.setAddress (s.settings.value "lastAddress").toString := fun e => hc ⟨h1, e⟩
        cases hq : (qt.setAddress r.data).eq
            (qt.setAddress (s.settings.value "lastAddress").toString)
        · rfl
        · exact absurd ((QHostAddress.eq_iff _ _).mp hq) h2
      · left
        simpa using h1
    simp [hb, MainDialog.deleteLater]

/-- C3. For a readable address reply, `readReplyForCurrentAddress` posts
`updateHost` exactly when the key `lastAddress` is absent or its parsed value
differs from the parsed body; otherwise nothing is posted. In both cases the
handler itself issues no request. With observed address `A` and persisted
address `B`, well-formed or not, this is: posted when `A ≠ B`, posted when
nothing is persisted, not posted when `A = B`. -/
theorem C3_update_scheduled_iff_address_changed (qt : Qt) (s : MainDialog) (p : Nat)
    (r : QNetworkReply) (A : QHostAddress) (h : s.netReply = some (p, r))
    (hA : qt.setAddress r.data = A) :
    ∃ s', s.readReplyForCurrentAddress qt = some s' ∧
      s'.replies.length = s.replies.length ∧
      (s.settings.value "lastAddress" = none →
        s'.eventQueue = s.eventQueue ++ [Slot.updateHost]) ∧
      (∀ text B, s.settings.value "lastAddress" = some text → qt.setAddress text = B →
        A ≠ B →
        s'.eventQueue = s.eventQueue ++ [Slot.updateHost]) ∧
      (∀ text, s.settings.value "lastAddress" = some text → qt.setAddress text = A →
        s'.eventQueue = s.eventQueue) ∧
      (s'.eventQueue = s.eventQueue ++ [Slot.updateHost] ↔
        (s.settings.value "lastAddress" = none ∨
          qt.setAddress (s.settings.value "lastAddress").toString ≠ A)) ∧
      (s'.eventQueue = s.eventQueue ↔
        ¬ (s.settings.value "lastAddress" = none ∨
          qt.setAddress (s.settings.value "lastAddress").toString ≠ A)) := by
  obtain ⟨s', hs', -, -, hlen, -, -, hq, -, -⟩ := MainDialog.readReplyForCurrentAddress_spec qt s p r h
  refine ⟨s', hs', hlen, ?_, ?_, ?_, ?_, ?_⟩
  · intro hnone
    have hc : s.settings.contains "lastAddress" = false := by
      rw [QSettings.contains_eq_isSome, hnone]
      rfl
    rw [hq, if_neg (by simp [hc])]
  · intro text B hsome hB hne
    rw [hq, if_neg]
    rintro ⟨-, e⟩
    rw [hsome, hA] at e
    exact hne (e.trans hB)
  · intro text hsome hB
    have hc : s.settings.contains "lastAddress" = true := by
      rw [QSettings.contains_eq_isSome, hsome]
      rfl
    rw [hq, if_pos]
    refine ⟨hc, ?_⟩
    rw [hsome, hA]
    exact hB.symm
  · rw [hq, hA, QSettings.contains_eq_isSome]
    rcases hv : s.settings.value "lastAddress" with _ | text
    · simp
    · by_cases e : A = qt.setAddress (QVariant.toString (some text))
      · simp [← e]
      · have e2 : ¬ qt.setAddress (QVariant.toString (some text)) = A := fun x => e x.symm
        simp [e, e2]
  · rw [hq, hA, QSettings.contains_eq_isSome]
    rcases hv : s.settings.value "lastAddress" with _ | text
    · simp
    · by_cases e : A = qt.setAddress (QVariant.toString (some text))
      · simp [← e]
      · have e2 : ¬ qt.setAddress (QVariant.toString (some text)) = A := fun x => e x.symm
        simp [e, e2]

/-- C5, as the code has it. When the body of the address reply does not
parse, `m_lastAddress` is the null address, and `updateHost` is posted exactly
when the key `lastAddress` is absent or its value parses to an address; when
the persisted value does not parse either, both are the null address, they
compare equal and nothing is posted. -/
theorem C5_unparseable_body (qt : Qt) (s : MainDialog) (p : Nat) (r : QNetworkReply)
    (h : s.netReply = some (p, r)) (hbad : qt.setAddress r.data = QHostAddress.null) :
    ∃ s', s.readReplyForCurrentAddress qt = some s' ∧
      s'.m_lastAddress = QHostAddress.null ∧
      (s.settings.value "lastAddress" = none →
        s'.eventQueue = s.eventQueue ++ [Slot.updateHost]) ∧
      (∀ text, s.settings.value "lastAddress" = some text →
        qt.setAddress text ≠ QHostAddress.null →
        s'.eventQueue = s.eventQueue ++ [Slot.updateHost]) ∧
      (∀ text, s.settings.value "lastAddress" = some text →
        qt.setAddress text = QHostAddress.null →
        s'.eventQueue = s.eventQueue) := by
  obtain ⟨s', hs', hl, -, -, -, -, hq, -, -⟩ := MainDialog.readReplyForCurrentAddress_spec qt s p r h
  refine ⟨s', hs', hl.trans hbad, ?_, ?_, ?_⟩
  · intro hnone
    have hc : s.settings.contains "lastAddress" = false := by
      rw [QSettings.contains_eq_isSome, hnone]
      rfl
    rw [hq, if_neg (by simp [hc])]
  · intro text hsome hne
    rw [hq, if_neg]
    rintro ⟨-, e⟩
    rw [hsome, hbad] at e
    exact hne e.symm
  · intro text hsome hnull
    have hc : s.settings.contains "lastAddress" = true := by
      rw [QSettings.contains_eq_isSome, hsome]
      rfl
    rw [hq, if_pos]
    refine ⟨hc, ?_⟩
    rw [hsome, hbad]
    exact hnull.symm

/-- C5 fails on the code: with the empty text persisted under `lastAddress`,
an address reply with an empty body, and one with a body that is no address,
post no `updateHost`: the cycle ends after the query. -/
theorem C5_counterexample :
    (MainDialog.run Sample.qt [Event.deferred, Event.finished 0 "" (some 200) ""]
        (MainDialog.init { entries := [("lastAddress", "")], writes := [] })).map
      (fun s => (s.eventQueue, s.replies.length)) = some ([], 1) ∧
    (MainDialog.run Sample.qt [Event.deferred, Event.finished 0 "no address" (some 200) ""]
        (MainDialog.init { entries := [("lastAddress", "")], writes := [] })).map
      (fun s => (s.eventQueue, s.replies.length)) = some ([], 1) := by
  decide

/-- C6, as the code has it. A reply without status code (failure at transport
level) ends the cycle when it is the update reply: `readReplyForUpdate` issues
no request, posts no slot, leaves the settings alone and clears `m_netReply`.
When it is the address reply, the failure goes unnoticed:
`readReplyForCurrentAddress` reports nothing, parses the body it finds and
posts `updateHost` exactly when the key `lastAddress` is absent or its parsed
value differs from the parsed body. -/
theorem C6_transport_failure (qt : Qt) (s : MainDialog) (p : Nat) (r : QNetworkReply)
    (h : s.netReply = some (p, r)) (hfail : r.statusCode = none) :
    (∃ s', s.readReplyForUpdate qt = some s' ∧
      s'.replies.length = s.replies.length ∧
      s'.eventQueue = s.eventQueue ∧
      s'.settings = s.settings ∧
      s'.m_netReply = none) ∧
    (∃ s', s.readReplyForCurrentAddress qt = some s' ∧
      s'.replies.length = s.replies.length ∧
      s'.settings = s.settings ∧
      s'.trayMessages = s.trayMessages ∧
      s'.m_actionStatus = s.m_actionStatus ∧
      (s.settings.contains "lastAddress" = false ∨
          qt.setAddress (s.settings.value "lastAddress").toString ≠ qt.setAddress r.data →
        s'.eventQueue = s.eventQueue ++ [Slot.updateHost]) ∧
      (s.settings.contains "lastAddress" = true ∧
          qt.setAddress (s.settings.value "lastAddress").toString = qt.setAddress r.data →
        s'.eventQueue = s.eventQueue)) := by
  constructor
  · unfold MainDialog.readReplyForUpdate
    rw [h]
    obtain ⟨req, slots, fin, data, sc, err, del⟩ := r
    simp only at hfail
    subst hfail
    simp [MainDialog.deleteLater]
  · obtain ⟨s', hs', -, hset, hlen, htray, hact, hq, -, -⟩ :=
      MainDialog.readReplyForCurrentAddress_spec qt s p r h
    refine ⟨s', hs', hlen, hset, htray, hact, ?_, ?_⟩
    · intro hd
      rw [hq, if_neg]
      rintro ⟨hc, e⟩
      rcases hd with hd | hd
      · rw [hc] at hd
        exact Bool.noConfusion hd
      · exact hd e.symm
    · rintro ⟨hc, e⟩
      rw [hq, if_pos ⟨hc, e.symm⟩]

/-- C6 fails on the code. An address query that fails at transport level (no
status code, empty body) is followed by an update request, and nothing is
shown; an update call that fails at transport level shows nothing either: no
tray message, and the status action stays as it was at start. -/
theorem C6_counterexample :
    (MainDialog.run Sample.qt
        [Event.deferred, Event.finished 0 "" none "Connection refused", Event.deferred]
        Sample.dialog).map
      (fun s => (s.replies.map MainDialog.isUpdateRequest, s.trayMessages)) =
        some ([false, true], []) ∧
    (MainDialog.run Sample.qt
        [Event.deferred, Event.finished 0 "5.6.7.8" (some 200) "", Event.deferred,
         Event.finished 1 "" none "Connection refused"]
        Sample.dialog).map
      (fun s => (s.trayMessages, s.m_actionStatus, s.eventQueue)) =
        some ([], { text := "No update made yet", toolTip := "", enabled := false }, []) := by
  decide

/-! ## Whole cycles (C7) -/

theorem List.modify_length_append {α : Type} (f : α → α) (l : List α) (a : α) (t : List α) :
    List.modify f l.length (l ++ a :: t) = l ++ f a :: t := by
  induction l with
  | nil => rfl
  | cons x xs ih => simp [ih]

theorem List.getElem?_length_append {α : Type} (l : List α) (a : α) (t : List α) :
    (l ++ a :: t)[l.length]? = some a := by
  induction l with
  | nil => simp
  | cons x xs ih => simpa using ih

/-- A timer tick followed by the answer to the address query it sent: the
query reply is appended, the settings stay, and `updateHost` is posted unless
the key `lastAddress` is present and parses to the address of the body. -/
theorem MainDialog.run_query (qt : Qt) (s : MainDialog) (body : String)
    (statusCode : Option Int) (errorString : String) :
    ∃ s' X, MainDialog.run qt
        [Event.timeout, Event.finished s.replies.length body statusCode errorString] s =
          some s' ∧
      s'.settings = s.settings ∧
      s'.replies = s.replies ++ [X] ∧
      MainDialog.isUpdateRequest X = false ∧
      s'.m_lastAddress = qt.setAddress body ∧
      s'.eventQueue =
        (if s.settings.contains "lastAddress" = true ∧
            qt.setAddress body = qt.setAddress (s.settings.value "lastAddress").toString
          then s.eventQueue else s.eventQueue ++ [Slot.updateHost]) := by
  have hnet : ((s.checkForUpdate qt).deliver s.replies.length body statusCode
      errorString).netReply = some (s.replies.length,
        { QNetworkReply.pending (MainDialog.createRequest qt s.settings
            { address := "https://ydns.eu/api/v1/ip", queryItems := [] }) with
          finishedSlots := [Slot.readReplyForCurrentAddress],
          isFinished := true, data := body, statusCode := statusCode,
          errorString := errorString }) := by
    simp [MainDialog.netReply, MainDialog.checkForUpdate, MainDialog.getAndConnect,
      MainDialog.deliver, List.modify_length_append, List.getElem?_length_append,
      QNetworkReply.pending]
  obtain ⟨s', hs', hl, hset, -, -, -, hq, hrep, -⟩ :=
    MainDialog.readReplyForCurrentAddress_spec qt _ _ _ hnet
  refine ⟨s',
    { QNetworkReply.pending (MainDialog.createRequest qt s.settings
        { address := "https://ydns.eu/api/v1/ip", queryItems := [] }) with
      finishedSlots := [Slot.readReplyForCurrentAddress],
      isFinished := true, data := "", statusCode := statusCode,
      errorString := errorString, deleted := true }, ?_, hset, ?_, ?_, hl, hq⟩
  · rw [← hs']
    simp [MainDialog.run, MainDialog.step, MainDialog.invoke, MainDialog.invokeAll,
      MainDialog.checkForUpdate, MainDialog.getAndConnect, List.getElem?_length_append,
      QNetworkReply.pending, QNetworkReply.outstanding]
    cases h : MainDialog.readReplyForCurrentAddress qt
        (MainDialog.deliver
          { s with
            replies := s.replies ++
              [{ request := MainDialog.createRequest qt s.settings
                    { address := "https://ydns.eu/api/v1/ip", queryItems := [] },
                 finishedSlots := [Slot.readReplyForCurrentAddress], isFinished := false,
                 data := "", statusCode := none, errorString := "Unknown error",
                 deleted := false }],
            m_netReply := some s.replies.length }
          s.replies.length body statusCode errorString) <;> rfl
  · rw [hrep]
    simp [MainDialog.checkForUpdate, MainDialog.getAndConnect, MainDialog.deliver,
      List.modify_length_append, QNetworkReply.pending]
  · simp [MainDialog.isUpdateRequest, QNetworkReply.pending, MainDialog.createRequest,
      QNetworkRequest.setRawHeader]

/-- What `readReplyForUpdate` does with a readable reply of status 200. -/
theorem MainDialog.readReplyForUpdate_ok (qt : Qt) (s : MainDialog) (p : Nat)
    (r : QNetworkReply) (h : s.netReply = some (p, r)) (hs : r.statusCode = some 200) :
    ∃ s', s.readReplyForUpdate qt = some s' ∧
      s'.settings = s.settings.setValue "lastAddress" (qt.addressToString s.m_lastAddress) ∧
      s'.replies = List.modify (fun r => { r with deleted := true }) p s.replies ∧
      s'.eventQueue = s.eventQueue ∧
      s'.m_lastAddress = s.m_lastAddress ∧
      s'.m_netReply = none := by
  unfold MainDialog.readReplyForUpdate
  rw [h]
  obtain ⟨req, slots, fin, data, sc, err, del⟩ := r
  simp only at hs
  subst hs
  simp [MainDialog.deleteLater, MainDialog.showMessage, HTTP_STATUS_OK, QSettings.sync]

/-- The posted `updateHost` followed by the answer 200 to the update request
it sent: the update reply is appended and `lastAddress` becomes the text of
`m_lastAddress`. -/
theorem MainDialog.run_update (qt : Qt) (s : MainDialog) (rest : List Slot) (body : String)
    (errorString : String) (hq : s.eventQueue = Slot.updateHost :: rest) :
    ∃ s' Y, MainDialog.run qt
        [Event.deferred, Event.finished s.replies.length body (some 200) errorString] s =
          some s' ∧
      s'.settings = s.settings.setValue "lastAddress" (qt.addressToString s.m_lastAddress) ∧
      s'.replies = s.replies ++ [Y] ∧
      MainDialog.isUpdateRequest Y = true ∧
      s'.eventQueue = rest := by
  have hnet : ((MainDialog.updateHost qt { s with eventQueue := rest }).deliver
      s.replies.length body (some 200) errorString).netReply = some (s.replies.length,
        { QNetworkReply.pending (MainDialog.createRequest qt s.settings
            { address := "https://ydns.eu/api/v1/update/",
              queryItems := [("host", (s.settings.value "host").toString)] }) with
          finishedSlots := [Slot.readReplyForUpdate],
          isFinished := true, data := body, statusCode := some 200,
          errorString := errorString }) := by
    simp [MainDialog.netReply, MainDialog.updateHost, MainDialog.getAndConnect,
      MainDialog.deliver, List.modify_length_append, List.getElem?_length_append,
      QNetworkReply.pending]
  obtain ⟨s', hs', hset, hrep, hqueue, -, -⟩ :=
    MainDialog.readReplyForUpdate_ok qt _ _ _ hnet rfl
  refine ⟨s',
    { QNetworkReply.pending (MainDialog.createRequest qt s.settings
        { address := "https://ydns.eu/api/v1/update/",
          queryItems := [("host", (s.settings.value "host").toString)] }) with
      finishedSlots := [Slot.readReplyForUpdate],
      isFinished := true, data := body, statusCode := some 200,
      errorString := errorString, deleted := true }, ?_, hset, ?_, ?_, hqueue⟩
  · rw [← hs']
    simp [MainDialog.run, MainDialog.step, MainDialog.invoke, MainDialog.invokeAll, hq,
      MainDialog.updateHost, MainDialog.getAndConnect, List.getElem?_length_append,
      QNetworkReply.pending, QNetworkReply.outstanding]
    cases h : MainDialog.readReplyForUpdate qt
        (MainDialog.deliver
          { s with
            replies := s.replies ++
              [{ request := MainDialog.createRequest qt s.settings
                    { address := "https://ydns.eu/api/v1/update/",
                      queryItems := [("host", (s.settings.value "host").toString)] },
                 finishedSlots := [Slot.readReplyForUpdate], isFinished := false,
                 data := "", statusCode := none, errorString := "Unknown error",
                 deleted := false }],
            m_netReply := some s.replies.length,
            eventQueue := rest }
          s.replies.length body (some 200) errorString) <;> rfl
  · rw [hrep]
    simp [MainDialog.updateHost, MainDialog.getAndConnect, MainDialog.deliver,
      List.modify_length_append, QNetworkReply.pending]
  · simp [MainDialog.isUpdateRequest, QNetworkReply.pending, MainDialog.createRequest,
      QNetworkRequest.setRawHeader]

theorem MainDialog.run_append (qt : Qt) (es1 es2 : List Event) (s : MainDialog) :
    MainDialog.run qt (es1 ++ es2) s =
      (MainDialog.run qt es1 s).bind (MainDialog.run qt es2) := by
  induction es1 generalizing s with
  | nil => rfl
  | cons e es ih =>
      simp only [List.cons_append, MainDialog.run]
      cases MainDialog.step qt e s with
      | none => rfl
      | some s1 => exact ih s1

/-- C7. Two polls in succession with the same query response. If the first
poll, started with no slot pending, finds the address changed (the key
`lastAddress` absent or parsing to another address), sends the update and gets
status 200, and if the text stored for the observed address parses back to
that address, then the second poll posts no `updateHost`: after both polls no
slot is pending, `lastAddress` holds the text of the observed address, and of
the three requests issued exactly one, the second, is an update request. -/
theorem C7_successful_cycle_idempotent (qt : Qt) (s : MainDialog) (body updateBody : String)
    (status1 status3 : Option Int) (error1 error2 error3 : String)
    (hidle : s.eventQueue = [])
    (hchanged : s.settings.contains "lastAddress" = false ∨
      qt.setAddress (s.settings.value "lastAddress").toString ≠ qt.setAddress body)
    (hround : qt.setAddress (qt.addressToString (qt.setAddress body)) = qt.setAddress body) :
    ∃ s', MainDialog.run qt
        [Event.timeout, Event.finished s.replies.length body status1 error1,
         Event.deferred, Event.finished (s.replies.length + 1) updateBody (some 200) error2,
         Event.timeout, Event.finished (s.replies.length + 2) body status3 error3] s =
          some s' ∧
      s'.eventQueue = [] ∧
      s'.settings.value "lastAddress" = some (qt.addressToString (qt.setAddress body)) ∧
      s'.replies.length = s.replies.length + 3 ∧
      (s'.replies.drop s.replies.length).map MainDialog.isUpdateRequest =
        [false, true, false] ∧
      ((s'.replies.drop s.replies.length).filter MainDialog.isUpdateRequest).length = 1 := by
  obtain ⟨s1, X, hrun1, hset1, hrep1, hX, hlast1, hq1⟩ :=
    MainDialog.run_query qt s body status1 error1
  have hq1' : s1.eventQueue = Slot.updateHost :: [] := by
    rw [hq1, if_neg, hidle]
    · rfl
    · rintro ⟨hc, e⟩
      rcases hchanged with hd | hd
      · rw [hc] at hd
        exact Bool.noConfusion hd
      · exact hd e.symm
  obtain ⟨s2, Y, hrun2, hset2, hrep2, hY, hq2⟩ :=
    MainDialog.run_update qt s1 [] updateBody error2 hq1'
  obtain ⟨s3, Z, hrun3, hset3, hrep3, hZ, hlast3, hq3⟩ :=
    MainDialog.run_query qt s2 body status3 error3
  have hlen1 : s1.replies.length = s.replies.length + 1 := by simp [hrep1]
  have hlen2 : s2.replies.length = s.replies.length + 2 := by simp [hrep2, hrep1]
  have hval : s2.settings.value "lastAddress" =
      some (qt.addressToString (qt.setAddress body)) := by
    rw [hset2, hlast1, QSettings.value_setValue_self]
  refine ⟨s3, ?_, ?_, ?_, ?_, ?_, ?_⟩
  · have e : [Event.timeout, Event.finished s.replies.length body status1 error1,
         Event.deferred, Event.finished (s.replies.length + 1) updateBody (some 200) error2,
         Event.timeout, Event.finished (s.replies.length + 2) body status3 error3] =
        [Event.timeout, Event.finished s.replies.length body status1 error1] ++
          ([Event.deferred, Event.finished s1.replies.length updateBody (some 200) error2] ++
            [Event.timeout, Event.finished s2.replies.length body status3 error3]) := by
      rw [hlen1, hlen2]
      rfl
    rw [e, MainDialog.run_append, hrun1, Option.some_bind, MainDialog.run_append, hrun2,
      Option.some_bind, hrun3]
  · rw [hq3, if_pos, hq2]
    refine ⟨?_, ?_⟩
    · rw [QSettings.contains_eq_isSome, hval]
      rfl
    · rw [hval]
      exact hround.symm
  · rw [hset3, hval]
  · simp [hrep3, hrep2, hrep1]
  · simp [hrep3, hrep2, hrep1, hX, hY, hZ]
  · simp [hrep3, hrep2, hrep1, hX, hY, hZ]

/-! ## The event loop (C9) -/

theorem List.mem_modify_cases {α : Type} (f : α → α) :
    ∀ (l : List α) (p : Nat) (x : α), x ∈ List.modify f p l → ∃ y ∈ l, x = y ∨ x = f y := by
  intro l
  induction l with
  | nil =>
      intro p x hx
      simp at hx
  | cons a as ih =>
      intro p x hx
      cases p with
      | zero =>
          simp only [List.modify_zero_cons, List.mem_cons] at hx
          rcases hx with hx | hx
          · exact ⟨a, List.mem_cons_self _ _, Or.inr hx⟩
          · exact ⟨x, List.mem_cons_of_mem _ hx, Or.inl rfl⟩
      | succ n =>
          simp only [List.modify_succ_cons, List.mem_cons] at hx
          rcases hx with hx | hx
          · exact ⟨a, List.mem_cons_self _ _, Or.inl hx⟩
          · obtain ⟨y, hy, hxy⟩ := ih n x hx
            exact ⟨y, List.mem_cons_of_mem _ hy, hxy⟩

theorem List.length_filter_modify_le {α : Type} (P : α → Bool) (f : α → α)
    (hf : ∀ a, P (f a) = true → P a = true) :
    ∀ (l : List α) (p : Nat),
      ((List.modify f p l).filter P).length ≤ (l.filter P).length := by
  intro l
  induction l with
  | nil =>
      intro p
      simp
  | cons a as ih =>
      intro p
      cases p with
      | zero =>
          by_cases h1 : P (f a) = true
          · simp [List.filter_cons, h1, hf a h1]
          · by_cases h2 : P a = true
            · simp [List.filter_cons, h1, h2]
            · simp [List.filter_cons, h1, h2]
      | succ n =>
          have := ih n
          by_cases h2 : P a = true
          · simpa [List.filter_cons, h2] using this
          · simpa [List.filter_cons, h2] using this

theorem List.length_filter_modify_lt {α : Type} (P : α → Bool) (f : α → α)
    (hf : ∀ a, P (f a) = false) :
    ∀ (l : List α) (p : Nat) (a : α), l[p]? = some a → P a = true →
      ((List.modify f p l).filter P).length + 1 = (l.filter P).length := by
  intro l
  induction l with
  | nil =>
      intro p a h
      simp at h
  | cons b bs ih =>
      intro p a h hP
      cases p with
      | zero =>
          simp only [List.getElem?_cons_zero, Option.some.injEq] at h
          subst h
          simp [List.filter_cons, hf, hP]
      | succ n =>
          simp only [List.getElem?_cons_succ] at h
          have := ih n a h hP
          by_cases h2 : P b = true
          · simp only [List.modify_succ_cons, List.filter_cons, h2, if_true, List.length_cons]
            omega
          · simpa [List.filter_cons, h2] using this

theorem MainDialog.slotsConnected_modify (f : QNetworkReply → QNetworkReply)
    (hf : ∀ r, (f r).finishedSlots = r.finishedSlots) (l : List QNetworkReply) (p : Nat)
    (h : ∀ r ∈ l, r.finishedSlots = [Slot.readReplyForCurrentAddress] ∨
      r.finishedSlots = [Slot.readReplyForUpdate]) :
    ∀ r ∈ List.modify f p l, r.finishedSlots = [Slot.readReplyForCurrentAddress] ∨
      r.finishedSlots = [Slot.readReplyForUpdate] := by
  intro r hr
  obtain ⟨y, hy, hxy⟩ := List.mem_modify_cases f l p r hr
  rcases hxy with e | e
  · rw [e]
    exact h y hy
  · rw [e, hf]
    exact h y hy

/-- What `readReplyForUpdate` does in every case with a readable reply: the
reply is marked for deletion, `m_netReply` is cleared, and neither a request
nor a slot is added. -/
theorem MainDialog.readReplyForUpdate_frame (qt : Qt) (s : MainDialog) (p : Nat)
    (r : QNetworkReply) (h : s.netReply = some (p, r)) :
    ∃ s', s.readReplyForUpdate qt = some s' ∧
      s'.replies = List.modify (fun r => { r with deleted := true }) p s.replies ∧
      s'.eventQueue = s.eventQueue ∧
      s'.m_netReply = none := by
  unfold MainDialog.readReplyForUpdate
  rw [h]
  obtain ⟨req, slots, fin, data, sc, err, del⟩ := r
  rcases sc with _ | status
  · simp [MainDialog.deleteLater]
  · simp only [MainDialog.deleteLater, MainDialog.showMessage]
    split_ifs <;> simp

/-- Running a slot adds at most one unit of work in flight and keeps the
replies connected to the reply slots. -/
theorem MainDialog.invoke_inFlight (qt : Qt) (slot : Slot) (s s' : MainDialog)
    (h : MainDialog.invoke qt slot s = some s') :
    s'.inFlight ≤ s.inFlight + 1 ∧ (s.SlotsConnected → s'.SlotsConnected) := by
  cases slot with
  | checkForUpdate =>
      simp only [MainDialog.invoke, Option.some.injEq] at h
      subst h
      constructor
      · simp [MainDialog.inFlight, MainDialog.outstandingReplies, MainDialog.checkForUpdate,
          MainDialog.getAndConnect, List.filter_append, QNetworkReply.outstanding,
          QNetworkReply.pending]
        omega
      · intro hc r hr
        simp only [MainDialog.checkForUpdate, MainDialog.getAndConnect, List.mem_append,
          List.mem_singleton] at hr
        rcases hr with hr | hr
        · exact hc r hr
        · left
          rw [hr]
  | updateHost =>
      simp only [MainDialog.invoke, Option.some.injEq] at h
      subst h
      constructor
      · simp [MainDialog.inFlight, MainDialog.outstandingReplies, MainDialog.updateHost,
          MainDialog.getAndConnect, List.filter_append, QNetworkReply.outstanding,
          QNetworkReply.pending]
        omega
      · intro hc r hr
        simp only [MainDialog.updateHost, MainDialog.getAndConnect, List.mem_append,
          List.mem_singleton] at hr
        rcases hr with hr | hr
        · exact hc r hr
        · right
          rw [hr]
  | readReplyForCurrentAddress =>
      simp only [MainDialog.invoke] at h
      rcases hn : s.netReply with _ | ⟨p, r⟩
      · simp [MainDialog.readReplyForCurrentAddress, hn] at h
      · obtain ⟨t, ht, -, -, -, -, -, hq, hrep, -⟩ :=
          MainDialog.readReplyForCurrentAddress_spec qt s p r hn
        rw [h, Option.some.injEq] at ht
        subst ht
        constructor
        · have h1 := List.length_filter_modify_le QNetworkReply.outstanding
            (fun r : QNetworkReply => { r with deleted := true })
            (by intro a; simp [QNetworkReply.outstanding])
            (List.modify (fun r : QNetworkReply => { r with data := "" }) p s.replies) p
          have h2 := List.length_filter_modify_le QNetworkReply.outstanding
            (fun r : QNetworkReply => { r with data := "" })
            (by intro a; simp [QNetworkReply.outstanding]) s.replies p
          have h3 : s'.eventQueue.length ≤ s.eventQueue.length + 1 := by
            rw [hq]
            split <;> simp
          simp only [MainDialog.inFlight, MainDialog.outstandingReplies, hrep]
          omega
        · intro hc
          unfold MainDialog.SlotsConnected
          rw [hrep]
          refine MainDialog.slotsConnected_modify _ ?_ _ _
            (MainDialog.slotsConnected_modify _ ?_ _ _ hc)
          · intro r
            rfl
          · intro r
            rfl
  | readReplyForUpdate =>
      simp only [MainDialog.invoke] at h
      rcases hn : s.netReply with _ | ⟨p, r⟩
      · simp [MainDialog.readReplyForUpdate, hn] at h
      · obtain ⟨t, ht, hrep, hq, -⟩ := MainDialog.readReplyForUpdate_frame qt s p r hn
        rw [h, Option.some.injEq] at ht
        subst ht
        constructor
        · have h1 := List.length_filter_modify_le QNetworkReply.outstanding
            (fun r : QNetworkReply => { r with deleted := true })
            (by intro a; simp [QNetworkReply.outstanding]) s.replies p
          simp only [MainDialog.inFlight, MainDialog.outstandingReplies, hrep, hq]
          omega
        · intro hc
          unfold MainDialog.SlotsConnected
          rw [hrep]
          refine MainDialog.slotsConnected_modify _ ?_ _ _ hc
          intro r
          rfl

theorem MainDialog.invokeAll_slotsConnected (qt : Qt) (slots : List Slot) :
    ∀ (s s' : MainDialog), MainDialog.invokeAll qt slots s = some s' →
      s.SlotsConnected → s'.SlotsConnected := by
  induction slots with
  | nil =>
      intro s s' h hc
      simp only [MainDialog.invokeAll, Option.some.injEq] at h
      rw [← h]
      exact hc
  | cons slot rest ih =>
      intro s s' h hc
      simp only [MainDialog.invokeAll] at h
      rcases hi : MainDialog.invoke qt slot s with _ | s1
      · rw [hi] at h
        exact Option.noConfusion h
      · rw [hi] at h
        exact ih s1 s' h ((MainDialog.invoke_inFlight qt slot s s1 hi).2 hc)

theorem MainDialog.on_pushButton_clicked_frame (s : MainDialog) :
    s.on_pushButton_clicked.replies = s.replies ∧
      s.on_pushButton_clicked.eventQueue = s.eventQueue := by
  unfold MainDialog.on_pushButton_clicked
  split_ifs <;> simp [MainDialog.showMessage]

theorem MainDialog.step_slotsConnected (qt : Qt) (e : Event) (s s' : MainDialog)
    (h : MainDialog.step qt e s = some s') (hc : s.SlotsConnected) : s'.SlotsConnected := by
  cases e with
  | timeout => exact (MainDialog.invoke_inFlight qt Slot.checkForUpdate s s' h).2 hc
  | deferred =>
      simp only [MainDialog.step] at h
      rcases hq : s.eventQueue with _ | ⟨slot, rest⟩
      · rw [hq] at h
        exact Option.noConfusion h
      · rw [hq] at h
        exact (MainDialog.invoke_inFlight qt slot _ s' h).2 hc
  | finished p body statusCode errorString =>
      simp only [MainDialog.step] at h
      rcases hr : s.replies[p]? with _ | r
      · rw [hr] at h
        exact Option.noConfusion h
      · rw [hr] at h
        simp only at h
        split at h
        · refine MainDialog.invokeAll_slotsConnected qt _ _ s' h ?_
          unfold MainDialog.SlotsConnected MainDialog.deliver
          refine MainDialog.slotsConnected_modify _ ?_ _ _ hc
          intro r
          rfl
        · exact Option.noConfusion h
  | userInput host email password =>
      simp only [MainDialog.step, Option.some.injEq] at h
      rw [← h]
      exact hc
  | pushButton =>
      simp only [MainDialog.step, Option.some.injEq] at h
      rw [← h]
      unfold MainDialog.SlotsConnected
      rw [(MainDialog.on_pushButton_clicked_frame s).1]
      exact hc

theorem MainDialog.run_slotsConnected (qt : Qt) (events : List Event) :
    ∀ (s s' : MainDialog), MainDialog.run qt events s = some s' →
      s.SlotsConnected → s'.SlotsConnected := by
  induction events with
  | nil =>
      intro s s' h hc
      simp only [MainDialog.run, Option.some.injEq] at h
      rw [← h]
      exact hc
  | cons e es ih =>
      intro s s' h hc
      simp only [MainDialog.run] at h
      rcases hs : MainDialog.step qt e s with _ | s1
      · rw [hs] at h
        exact Option.noConfusion h
      · rw [hs] at h
        exact ih s1 s' h (MainDialog.step_slotsConnected qt e s s1 hs hc)

theorem MainDialog.Reachable.slotsConnected (qt : Qt) (s : MainDialog)
    (h : MainDialog.Reachable qt s) : s.SlotsConnected := by
  obtain ⟨settings, events, hrun⟩ := h
  refine MainDialog.run_slotsConnected qt events _ s hrun ?_
  intro r hr
  simp [MainDialog.init] at hr

/-- In a state whose replies are connected to the reply slots, every event
other than a timer tick leaves the work in flight as it is or reduces it. -/
theorem MainDialog.step_inFlight_le (qt : Qt) (s : MainDialog) (hc : s.SlotsConnected)
    (e : Event) (s' : MainDialog) (hne : e ≠ Event.timeout)
    (h : MainDialog.step qt e s = some s') : s'.inFlight ≤ s.inFlight := by
  cases e with
  | timeout => exact absurd rfl hne
  | deferred =>
      simp only [MainDialog.step] at h
      rcases hq : s.eventQueue with _ | ⟨slot, rest⟩
      · rw [hq] at h
        exact Option.noConfusion h
      · rw [hq] at h
        have h1 := (MainDialog.invoke_inFlight qt slot _ s' h).1
        simp only [MainDialog.inFlight, MainDialog.outstandingReplies, hq,
          List.length_cons] at h1 ⊢
        omega
  | finished p body statusCode errorString =>
      simp only [MainDialog.step] at h
      rcases hr : s.replies[p]? with _ | r
      · rw [hr] at h
        exact Option.noConfusion h
      · rw [hr] at h
        simp only at h
        split at h
        · rename_i hout
          have hd : (s.deliver p body statusCode errorString).inFlight + 1 = s.inFlight := by
            have := List.length_filter_modify_lt QNetworkReply.outstanding
              (fun r : QNetworkReply =>
                { r with
                  isFinished := true, data := body, statusCode := statusCode,
                  errorString := errorString })
              (by intro a; simp [QNetworkReply.outstanding]) s.replies p r hr hout
            simp only [MainDialog.inFlight, MainDialog.outstandingReplies,
              MainDialog.deliver]
            omega
          have hmem : r ∈ s.replies := List.getElem?_mem hr
          rcases hc r hmem with hs | hs
          · rw [hs] at h
            simp only [MainDialog.invokeAll] at h
            rcases hi : MainDialog.invoke qt Slot.readReplyForCurrentAddress
                (s.deliver p body statusCode errorString) with _ | s1
            · rw [hi] at h
              exact Option.noConfusion h
            · rw [hi] at h
              simp only [Option.some.injEq] at h
              subst h
              have := (MainDialog.invoke_inFlight qt _ _ _ hi).1
              omega
          · rw [hs] at h
            simp only [MainDialog.invokeAll] at h
            rcases hi : MainDialog.invoke qt Slot.readReplyForUpdate
                (s.deliver p body statusCode errorString) with _ | s1
            · rw [hi] at h
              exact Option.noConfusion h
            · rw [hi] at h
              simp only [Option.some.injEq] at h
              subst h
              have := (MainDialog.invoke_inFlight qt _ _ _ hi).1
              omega
        · exact Option.noConfusion h
  | userInput host email password =>
      simp only [MainDialog.step, Option.some.injEq] at h
      rw [← h]
      exact le_refl _
  | pushButton =>
      simp only [MainDialog.step, Option.some.injEq] at h
      rw [← h]
      simp only [MainDialog.inFlight, MainDialog.outstandingReplies,
        (MainDialog.on_pushButton_clicked_frame s).1,
        (MainDialog.on_pushButton_clicked_frame s).2]
      exact le_refl _

theorem MainDialog.run_inFlight_le (qt : Qt) (events : List Event) :
    ∀ (s s' : MainDialog), s.SlotsConnected → Event.timeout ∉ events →
      MainDialog.run qt events s = some s' → s'.inFlight ≤ s.inFlight := by
  induction events with
  | nil =>
      intro s s' _ _ h
      simp only [MainDialog.run, Option.some.injEq] at h
      rw [← h]
  | cons e es ih =>
      intro s s' hc hno h
      simp only [MainDialog.run] at h
      rcases hs : MainDialog.step qt e s with _ | s1
      · rw [hs] at h
        exact Option.noConfusion h
      · rw [hs] at h
        have hne : e ≠ Event.timeout := fun x => hno (x ▸ List.mem_cons_self _ _)
        have h1 := MainDialog.step_inFlight_le qt s hc e s1 hne hs
        have h2 := ih s1 s' (MainDialog.step_slotsConnected qt e s s1 hs hc)
          (fun x => hno (List.mem_cons_of_mem _ x)) h
        exact le_trans h2 h1

/-- C9, as the code has it. A timer tick always runs `checkForUpdate` at
once: it issues a new address query and stores the new reply in `m_netReply`,
whatever is outstanding, so the work in flight (outstanding requests plus
posted slots) grows by one; a tick is neither queued nor dropped. Every other
event of the loop, in a reachable state, leaves the work in flight as it is or
reduces it, and so does every list of events without a tick: only ticks start
cycles. -/
theorem C9_only_ticks_start_cycles (qt : Qt) (s : MainDialog) :
    (∃ s', MainDialog.step qt Event.timeout s = some s' ∧
      s'.m_netReply = some s.replies.length ∧
      s'.replies.length = s.replies.length + 1 ∧
      s'.outstandingReplies = s.outstandingReplies + 1 ∧
      s'.eventQueue = s.eventQueue ∧
      s'.inFlight = s.inFlight + 1) ∧
    (MainDialog.Reachable qt s → ∀ e s', e ≠ Event.timeout →
      MainDialog.step qt e s = some s' → s'.inFlight ≤ s.inFlight) ∧
    (MainDialog.Reachable qt s → ∀ events s', Event.timeout ∉ events →
      MainDialog.run qt events s = some s' → s'.inFlight ≤ s.inFlight) := by
  refine ⟨?_, ?_, ?_⟩
  · refine ⟨s.checkForUpdate qt, rfl, rfl, ?_, ?_, rfl, ?_⟩
    · simp [MainDialog.checkForUpdate, MainDialog.getAndConnect]
    · simp [MainDialog.outstandingReplies, MainDialog.checkForUpdate,
        MainDialog.getAndConnect, List.filter_append, QNetworkReply.outstanding,
        QNetworkReply.pending]
    · simp [MainDialog.inFlight, MainDialog.outstandingReplies, MainDialog.checkForUpdate,
        MainDialog.getAndConnect, List.filter_append, QNetworkReply.outstanding,
        QNetworkReply.pending]
      omega
  · intro hreach e s' hne h
    exact MainDialog.step_inFlight_le qt s (MainDialog.Reachable.slotsConnected qt s hreach)
      e s' hne h
  · intro hreach events s' hno h
    exact MainDialog.run_inFlight_le qt events s s'
      (MainDialog.Reachable.slotsConnected qt s hreach) hno h

/-- C9 fails on the code. After the first `checkForUpdate` one address query
is outstanding and `m_netReply` points to it; a timer tick arriving then starts
a second cycle at once: two address queries are outstanding and `m_netReply`
points to the second. When the first reply then arrives, its slot reads the
second, still empty reply, and the update that follows stores the empty text
under `lastAddress`. -/
theorem C9_counterexample :
    (MainDialog.run Sample.qt [Event.deferred] Sample.dialog).map
      (fun s => (s.outstandingReplies, s.m_netReply)) = some (1, some 0) ∧
    (MainDialog.run Sample.qt [Event.deferred, Event.timeout] Sample.dialog).map
      (fun s => (s.outstandingReplies, s.m_netReply, s.replies.map MainDialog.isAddressQuery)) =
        some (2, some 1, [true, true]) ∧
    (MainDialog.run Sample.qt
        [Event.deferred, Event.timeout, Event.finished 0 "5.6.7.8" (some 200) "",
         Event.deferred, Event.finished 2 "" (some 200) ""] Sample.dialog).map
      (fun s => s.settings.value "lastAddress") = some (some "") := by
  decide

/-! ## The theorems at concrete inputs -/

/-- C1 at a concrete input: `1.2.3.4` is persisted, `5.6.7.8` was observed,
and the update reply has status 403; the settings stay as they were. -/
theorem C1_witness :
    (Sample.updateAnswered (some 403) "Forbidden").netReply =
      some (1, Sample.replyAt (Sample.updateAnswered (some 403) "Forbidden") 1) ∧
    ∃ s', (Sample.updateAnswered (some 403) "Forbidden").readReplyForUpdate Sample.qt =
        some s' ∧
      s'.settings = Sample.settings ∧
      s'.settings.value "lastAddress" = some "1.2.3.4" := by
  refine ⟨by decide, ?_⟩
  obtain ⟨s', h1, -, -, h3⟩ := C1_lastAddress_written_iff_status_200 Sample.qt
    (Sample.updateAnswered (some 403) "Forbidden") 1
    (Sample.replyAt (Sample.updateAnswered (some 403) "Forbidden") 1) (by decide)
  have h4 : s'.settings = Sample.settings := (h3 (by decide)).trans (by decide)
  exact ⟨s', h1, h4, by rw [h4]; decide⟩

/-- C2 at a concrete input: the update reply has status 404 and the host is
`home.ydns.eu`. -/
theorem C2_witness :
    (Sample.updateAnswered (some 404) "Not Found").netReply =
      some (1, Sample.replyAt (Sample.updateAnswered (some 404) "Not Found") 1) ∧
    (Sample.replyAt (Sample.updateAnswered (some 404) "Not Found") 1).statusCode =
      some 404 ∧
    ∃ s', (Sample.updateAnswered (some 404) "Not Found").readReplyForUpdate Sample.qt =
        some s' ∧
      s'.m_actionStatus.text = "home.ydns.eu: Object not found" := by
  refine ⟨by decide, by decide, ?_⟩
  obtain ⟨s', h1, h2, -⟩ := C2_status_classification Sample.qt
    (Sample.updateAnswered (some 404) "Not Found") 1
    (Sample.replyAt (Sample.updateAnswered (some 404) "Not Found") 1) 404
    (by decide) (by decide)
  exact ⟨s', h1, h2.trans (by decide)⟩

/-- C3 at a concrete input: `1.2.3.4` is persisted and the query response is
`1.2.3.4`; no slot is posted and the query stays the only request, also when
the cycle is run from the start of the dialog. -/
theorem C3_witness :
    (Sample.queryAnswered "1.2.3.4" (some 200)).netReply =
      some (0, Sample.replyAt (Sample.queryAnswered "1.2.3.4" (some 200)) 0) ∧
    Sample.qt.setAddress (Sample.replyAt (Sample.queryAnswered "1.2.3.4" (some 200)) 0).data =
      QHostAddress.ipv4 16909060 ∧
    (∃ s', (Sample.queryAnswered "1.2.3.4" (some 200)).readReplyForCurrentAddress Sample.qt =
        some s' ∧
      s'.eventQueue = [] ∧ s'.replies.length = 1) ∧
    (MainDialog.run Sample.qt [Event.deferred, Event.finished 0 "1.2.3.4" (some 200) ""]
        Sample.dialog).map
      (fun s => (s.replies.map MainDialog.isUpdateRequest, s.eventQueue)) =
        some ([false], []) := by
  refine ⟨by decide, by decide, ?_, by decide⟩
  obtain ⟨s', h1, h2, -, -, h3, -⟩ := C3_update_scheduled_iff_address_changed Sample.qt
    (Sample.queryAnswered "1.2.3.4" (some 200)) 0
    (Sample.replyAt (Sample.queryAnswered "1.2.3.4" (some 200)) 0)
    (QHostAddress.ipv4 16909060) (by decide) (by decide)
  exact ⟨s', h1, (h3 "1.2.3.4" (by decide) (by decide)).trans (by decide),
    h2.trans (by decide)⟩

/-- C5 at a concrete input: `1.2.3.4` is persisted and the query response is
empty; `updateHost` is posted. -/
theorem C5_witness :
    (Sample.queryAnswered "" (some 200)).netReply =
      some (0, Sample.replyAt (Sample.queryAnswered "" (some 200)) 0) ∧
    Sample.qt.setAddress (Sample.replyAt (Sample.queryAnswered "" (some 200)) 0).data =
      QHostAddress.null ∧
    ∃ s', (Sample.queryAnswered "" (some 200)).readReplyForCurrentAddress Sample.qt =
        some s' ∧
      s'.eventQueue = [Slot.updateHost] := by
  refine ⟨by decide, by decide, ?_⟩
  obtain ⟨s', h1, -, -, h3, -⟩ := C5_unparseable_body Sample.qt
    (Sample.queryAnswered "" (some 200)) 0
    (Sample.replyAt (Sample.queryAnswered "" (some 200)) 0) (by decide) (by decide)
  exact ⟨s', h1, (h3 "1.2.3.4" (by decide) (by decide)).trans (by decide)⟩

/-- C6 at a concrete input: the update call for `5.6.7.8` fails at transport
level; no slot is posted, no request is added and the settings stay. -/
theorem C6_witness :
    (Sample.updateAnswered none "Connection refused").netReply =
      some (1, Sample.replyAt (Sample.updateAnswered none "Connection refused") 1) ∧
    (Sample.replyAt (Sample.updateAnswered none "Connection refused") 1).statusCode = none ∧
    ∃ s', (Sample.updateAnswered none "Connection refused").readReplyForUpdate Sample.qt =
        some s' ∧
      s'.replies.length = 2 ∧ s'.eventQueue = [] ∧ s'.settings = Sample.settings := by
  refine ⟨by decide, by decide, ?_⟩
  obtain ⟨⟨s', h1, h2, h3, h4, -⟩, -⟩ := C6_transport_failure Sample.qt
    (Sample.updateAnswered none "Connection refused") 1
    (Sample.replyAt (Sample.updateAnswered none "Connection refused") 1)
    (by decide) (by decide)
  exact ⟨s', h1, h2.trans (by decide), h3.trans (by decide), h4.trans (by decide)⟩

/-- C7 at a concrete input: `1.2.3.4` is persisted, no slot is pending, and
two polls in succession observe `5.6.7.8`, the update of the first getting
status 200; `5.6.7.8` is persisted and one update request was sent. -/
theorem C7_witness :
    Sample.idle.eventQueue = [] ∧
    Sample.qt.setAddress (Sample.idle.settings.value "lastAddress").toString ≠
      Sample.qt.setAddress "5.6.7.8" ∧
    Sample.qt.setAddress (Sample.qt.addressToString (Sample.qt.setAddress "5.6.7.8")) =
      Sample.qt.setAddress "5.6.7.8" ∧
    ∃ s', MainDialog.run Sample.qt
        [Event.timeout, Event.finished Sample.idle.replies.length "5.6.7.8" (some 200) "",
         Event.deferred, Event.finished (Sample.idle.replies.length + 1) "" (some 200) "",
         Event.timeout, Event.finished (Sample.idle.replies.length + 2) "5.6.7.8" (some 200) ""]
        Sample.idle = some s' ∧
      s'.eventQueue = [] ∧
      s'.settings.value "lastAddress" = some "5.6.7.8" ∧
      ((s'.replies.drop Sample.idle.replies.length).filter
        MainDialog.isUpdateRequest).length = 1 := by
  refine ⟨by decide, by decide, by decide, ?_⟩
  obtain ⟨s', h1, h2, h3, -, -, h6⟩ := C7_successful_cycle_idempotent Sample.qt Sample.idle
    "5.6.7.8" "" (some 200) (some 200) "" "" "" (by decide) (Or.inr (by decide)) (by decide)
  exact ⟨s', h1, h2, h3.trans (by decide), h6⟩

/-- C9 at a concrete input: right after start, which is a reachable state,
the posted `checkForUpdate` runs and the work in flight stays at one unit. -/
theorem C9_witness :
    MainDialog.Reachable Sample.qt Sample.dialog ∧
    ∃ s', MainDialog.step Sample.qt Event.deferred Sample.dialog = some s' ∧
      s'.inFlight ≤ Sample.dialog.inFlight := by
  have hreach : MainDialog.Reachable Sample.qt Sample.dialog := ⟨Sample.settings, [], rfl⟩
  refine ⟨hreach,
    MainDialog.checkForUpdate Sample.qt { Sample.dialog with eventQueue := [] }, by decide, ?_⟩
  exact (C9_only_ticks_start_cycles Sample.qt Sample.dialog).2.1 hreach Event.deferred _
    (by decide) (by decide)
